import Mathlib

/-!
Verification of the edk2-parser meta-file parsing core against its
natural-language specification.

The development shallowly embeds the Python sources:
  * src/parsers/MetaFileStore.py   (record tables: ModuleTable, PackageTable, PlatformTable)
  * src/parsers/MetaFileParser2.py (raw parsers and the DSC post-processing pass)
  * src/Common/Misc.py             (PCD value analysis and datum checking)

Python strings become Lean String, Python ints become Int/Nat, Python lists
become List, Python dicts become insertion-ordered association lists, and
fatal EdkLogger.error calls become Except.error.  External collaborators that
are not part of the sources (the expression evaluator, the file system, the
md5 hash) are passed in as explicit oracle parameters.  Helper functions that
live in repository modules not included under src/ (Common/StringUtils.py,
Common/GlobalData.py, CommonDataClass/DataClass.py, Common/DataType.py) are
modelled from the specification text and marked as such in their doc comments.
-/

namespace Edk2Parser

/-! ## Python-compatible string helpers -/

/-- Whitespace set of Python str.strip(): space, tab, newline, carriage
return, vertical tab and form feed. -/
def isPyWs (c : Char) : Bool :=
  c = ' ' || c = '\t' || c = '\n' || c = '\r' || c = Char.ofNat 11 || c = Char.ofNat 12

/-- Python str.strip(): removes leading and trailing whitespace. -/
def pyStrip (s : String) : String :=
  String.mk (((s.toList.dropWhile isPyWs).reverse.dropWhile isPyWs).reverse)

/-- Replacement loop for pyReplace, structurally recursive on a fuel
bounded by the string length (the pattern is nonempty at every call
site). -/
def listReplaceAux (pat rep : List Char) : Nat → List Char → List Char
  | 0, s => s
  | _ + 1, [] => []
  | fuel + 1, c :: rest =>
      if pat.isPrefixOf (c :: rest) then
        rep ++ listReplaceAux pat rep fuel ((c :: rest).drop pat.length)
      else c :: listReplaceAux pat rep fuel rest

/-- Python str.replace: replaces every non-overlapping occurrence of the
pattern, scanning left to right (identity for the empty pattern, which no
call site uses). -/
def pyReplace (s pat rep : String) : String :=
  if pat = "" then s
  else String.mk (listReplaceAux pat.toList rep.toList s.toList.length s.toList)

/-- Python str.startswith. -/
def pyStartsWith (s pre : String) : Bool := pre.toList.isPrefixOf s.toList

/-- Python str.endswith. -/
def pyEndsWith (s suf : String) : Bool := suf.toList.isSuffixOf s.toList

/-- Python str.lower restricted to ASCII, as the sources use it. -/
def pyToLower (s : String) : String := String.mk (s.toList.map Char.toLower)

/-- Python str.upper restricted to ASCII, as the sources use it. -/
def pyToUpper (s : String) : String := String.mk (s.toList.map Char.toUpper)

/-- Python truthiness of the dynamically-typed Enabled field.  The tables
store Python True/False (modelled as 1/0) and the sentinel rows use the
integer -1; bool(x) for an int is x different from 0. -/
def pyTruthy (i : Int) : Bool := i != 0

/-! ## Constants from CommonDataClass/DataClass.py (not under src/; the
numeric values are the upstream edk2 ones; only their distinctness matters
to the sources). -/

def MODEL_UNKNOWN : Int := 0
def MODEL_FILE_INF : Int := 1011
def MODEL_FILE_DEC : Int := 1012
def MODEL_FILE_DSC : Int := 1013
def MODEL_FILE_OTHERS : Int := 1099
def MODEL_EFI_PROTOCOL : Int := 3001
def MODEL_EFI_PPI : Int := 3002
def MODEL_EFI_GUID : Int := 3003
def MODEL_EFI_LIBRARY_CLASS : Int := 3004
def MODEL_EFI_LIBRARY_INSTANCE : Int := 3005
def MODEL_EFI_SOURCE_FILE : Int := 3007
def MODEL_EFI_BINARY_FILE : Int := 3008
def MODEL_EFI_SKU_ID : Int := 3009
def MODEL_EFI_INCLUDE : Int := 3010
def MODEL_EFI_DEPEX : Int := 3011
def MODEL_EFI_DEFAULT_STORES : Int := 3012
def MODEL_PCD_FIXED_AT_BUILD : Int := 4001
def MODEL_PCD_PATCHABLE_IN_MODULE : Int := 4002
def MODEL_PCD_FEATURE_FLAG : Int := 4003
def MODEL_PCD_DYNAMIC_EX : Int := 4004
def MODEL_PCD_DYNAMIC_EX_DEFAULT : Int := 4005
def MODEL_PCD_DYNAMIC_EX_VPD : Int := 4006
def MODEL_PCD_DYNAMIC_EX_HII : Int := 4007
def MODEL_PCD_DYNAMIC : Int := 4008
def MODEL_PCD_DYNAMIC_DEFAULT : Int := 4009
def MODEL_PCD_DYNAMIC_VPD : Int := 4010
def MODEL_PCD_DYNAMIC_HII : Int := 4011
def MODEL_META_DATA_HEADER_COMMENT : Int := 5000
def MODEL_META_DATA_HEADER : Int := 5001
def MODEL_META_DATA_INCLUDE : Int := 5002
def MODEL_META_DATA_DEFINE : Int := 5003
def MODEL_META_DATA_CONDITIONAL_STATEMENT_IF : Int := 5004
def MODEL_META_DATA_CONDITIONAL_STATEMENT_ELSE : Int := 5005
def MODEL_META_DATA_CONDITIONAL_STATEMENT_IFDEF : Int := 5006
def MODEL_META_DATA_CONDITIONAL_STATEMENT_IFNDEF : Int := 5007
def MODEL_META_DATA_BUILD_OPTION : Int := 5008
def MODEL_META_DATA_COMPONENT : Int := 5009
def MODEL_META_DATA_USER_EXTENSION : Int := 5010
def MODEL_META_DATA_PACKAGE : Int := 5011
def MODEL_META_DATA_NMAKE : Int := 5012
def MODEL_META_DATA_CONDITIONAL_STATEMENT_ELSEIF : Int := 5013
def MODEL_META_DATA_CONDITIONAL_STATEMENT_ENDIF : Int := 5014
def MODEL_META_DATA_COMMENT : Int := 5016
def MODEL_META_DATA_GLOBAL_DEFINE : Int := 5017
def MODEL_META_DATA_SECTION_HEADER : Int := 5100
def MODEL_META_DATA_SUBSECTION_HEADER : Int := 5200
def MODEL_META_DATA_TAIL_COMMENT : Int := 5300
def MODEL_META_DATA_CONDITIONAL_STATEMENT_ERROR : Int := 5400

/-! ## Constants from Common/DataType.py (not under src/). -/

def TAB_COMMON : String := "COMMON"
def TAB_ARCH_COMMON : String := "COMMON"
def TAB_DEFAULT_STORES_DEFAULT : String := "STANDARD"

/-! ## src/parsers/MetaFileStore.py -/

/-- Class attribute MetaFileTable._ID_STEP_. -/
def ID_STEP : Int := 1

/-- Class attribute MetaFileTable._ID_MAX_. -/
def ID_MAX : Int := 99999999

/-- Record row of ModuleTable (dataclass InfLine).  Enabled is dynamically
typed in Python (bools on inserted rows, the int -1 on the sentinel); it is
modelled as Int with False as 0 and True as 1.  EndLine is likewise Int
(the Insert default is the Python bool False, i.e. 0). -/
structure InfLine where
  ID : Int
  Model : Int
  Value1 : String
  Value2 : String
  Value3 : String
  Scope1 : String
  Scope2 : String
  BelongsToItem : Int
  StartLine : Int
  StartColumn : Int
  EndLine : Int
  EndColumn : Int
  Enabled : Int
deriving DecidableEq, Repr

/-- Record row of PackageTable (dataclass DecLine); same field layout as
InfLine. -/
structure DecLine where
  ID : Int
  Model : Int
  Value1 : String
  Value2 : String
  Value3 : String
  Scope1 : String
  Scope2 : String
  BelongsToItem : Int
  StartLine : Int
  StartColumn : Int
  EndLine : Int
  EndColumn : Int
  Enabled : Int
deriving DecidableEq, Repr

/-- Record row of PlatformTable (dataclass DscLine). -/
structure DscLine where
  ID : Int
  Model : Int
  Value1 : String
  Value2 : String
  Value3 : String
  Scope1 : String
  Scope2 : String
  Scope3 : String
  BelongsToItem : Int
  FromItem : Int
  StartLine : Int
  StartColumn : Int
  EndLine : Int
  EndColumn : Int
  Comment : String
  Condition : String
  Included : String
  Enabled : Int
deriving DecidableEq, Repr

/-- ModuleTable state: the list CurrentContent plus the per-file id counter
(MetaFileTable.__init__ sets ID = 0). -/
structure ModuleTable where
  CurrentContent : List InfLine
  ID : Int
deriving DecidableEq, Repr

/-- Fresh ModuleTable as produced by the constructor. -/
def ModuleTable.init : ModuleTable := { CurrentContent := [], ID := 0 }

/-- Class attribute ModuleTable._DUMMY_, the end-flag sentinel row. -/
def ModuleTable.dummy : InfLine :=
  { ID := -1, Model := -1, Value1 := "====", Value2 := "====", Value3 := "====",
    Scope1 := "====", Scope2 := "====", BelongsToItem := -1, StartLine := -1,
    StartColumn := -1, EndLine := -1, EndColumn := -1, Enabled := 0 }

/-- ModuleTable.Insert.  Strips the value and scope fields, advances the id
counter by _ID_STEP_, wraps the counter back to MODEL_FILE_INF + _ID_STEP_
once it reaches MODEL_FILE_INF + _ID_MAX_, appends the row and returns the
new table together with the returned id. -/
def ModuleTable.Insert (t : ModuleTable) (Model : Int) (V1 V2 V3 S1 S2 : String)
    (BelongsToItem StartLine StartColumn EndLine EndColumn : Int) (Enabled : Int) :
    ModuleTable × Int :=
  let newID0 := t.ID + ID_STEP
  let newID := if newID0 ≥ MODEL_FILE_INF + ID_MAX then MODEL_FILE_INF + ID_STEP else newID0
  let row : InfLine :=
    { ID := newID, Model := Model, Value1 := pyStrip V1, Value2 := pyStrip V2,
      Value3 := pyStrip V3, Scope1 := pyStrip S1, Scope2 := pyStrip S2,
      BelongsToItem := BelongsToItem, StartLine := StartLine, StartColumn := StartColumn,
      EndLine := EndLine, EndColumn := EndColumn, Enabled := Enabled }
  ({ CurrentContent := t.CurrentContent ++ [row], ID := newID }, newID)

/-- ModuleTable.Query.  Filters by model and Python-truthy Enabled, then by
the optional Arch and Platform scope filters and the optional BelongsToItem
filter. -/
def ModuleTable.Query (t : ModuleTable) (Model : Int)
    (Arch Platform : Option String) (BelongsToItem : Option Int) : List InfLine :=
  let result := t.CurrentContent.filter (fun item => item.Model == Model && pyTruthy item.Enabled)
  let result := match Arch with
    | some a =>
        if a ≠ TAB_ARCH_COMMON then
          result.filter (fun item => item.Scope1 == "COMMON" || item.Scope1 == a)
        else result
    | none => result
  let result := match Platform with
    | some p =>
        if p ≠ TAB_COMMON then
          result.filter (fun item => item.Scope2 == "COMMON" || item.Scope2 == "DEFAULT" || item.Scope2 == p)
        else result
    | none => result
  match BelongsToItem with
  | some b => result.filter (fun item => item.BelongsToItem == b)
  | none => result

/-- MetaFileTable.GetAll specialised to ModuleTable. -/
def ModuleTable.GetAll (t : ModuleTable) : List InfLine :=
  t.CurrentContent.filter (fun item => item.ID ≥ 0 && pyTruthy item.Enabled)

/-- MetaFileTable.SetEndFlag specialised to ModuleTable. -/
def ModuleTable.SetEndFlag (t : ModuleTable) : ModuleTable :=
  { t with CurrentContent := t.CurrentContent ++ [ModuleTable.dummy] }

/-- MetaFileTable.IsIntegrity specialised to ModuleTable: the table is
nonempty and its last row has a negative id. -/
def ModuleTable.IsIntegrity (t : ModuleTable) : Bool :=
  match t.CurrentContent.getLast? with
  | some row => row.ID < 0
  | none => false

/-- PackageTable state. -/
structure PackageTable where
  CurrentContent : List DecLine
  ID : Int
deriving DecidableEq, Repr

/-- Fresh PackageTable as produced by the constructor. -/
def PackageTable.init : PackageTable := { CurrentContent := [], ID := 0 }

/-- Class attribute PackageTable._DUMMY_ (its Enabled slot is the int -1). -/
def PackageTable.dummy : DecLine :=
  { ID := -1, Model := -1, Value1 := "====", Value2 := "====", Value3 := "====",
    Scope1 := "====", Scope2 := "====", BelongsToItem := -1, StartLine := -1,
    StartColumn := -1, EndLine := -1, EndColumn := -1, Enabled := -1 }

/-- PackageTable.Insert.  Unlike ModuleTable.Insert there is no wrap-around
check on the id counter. -/
def PackageTable.Insert (t : PackageTable) (Model : Int) (V1 V2 V3 S1 S2 : String)
    (BelongsToItem StartLine StartColumn EndLine EndColumn : Int) (Enabled : Int) :
    PackageTable × Int :=
  let newID := t.ID + ID_STEP
  let row : DecLine :=
    { ID := newID, Model := Model, Value1 := pyStrip V1, Value2 := pyStrip V2,
      Value3 := pyStrip V3, Scope1 := pyStrip S1, Scope2 := pyStrip S2,
      BelongsToItem := BelongsToItem, StartLine := StartLine, StartColumn := StartColumn,
      EndLine := EndLine, EndColumn := EndColumn, Enabled := Enabled }
  ({ CurrentContent := t.CurrentContent ++ [row], ID := newID }, newID)

/-- PackageTable.Query.  NOTE: the base filter keeps records with
item.Enabled greater or equal 0 (a Python comparison on the dynamically
typed Enabled slot), not with truthy Enabled. -/
def PackageTable.Query (t : PackageTable) (Model : Int) (Arch : Option String) :
    List DecLine :=
  let result := t.CurrentContent.filter (fun item => item.Model == Model && item.Enabled ≥ 0)
  match Arch with
  | some a =>
      if a ≠ TAB_ARCH_COMMON then
        result.filter (fun item => item.Scope1 == "COMMON" || item.Scope1 == a)
      else result
  | none => result

/-- MetaFileTable.GetAll specialised to PackageTable. -/
def PackageTable.GetAll (t : PackageTable) : List DecLine :=
  t.CurrentContent.filter (fun item => item.ID ≥ 0 && pyTruthy item.Enabled)

/-- MetaFileTable.SetEndFlag specialised to PackageTable. -/
def PackageTable.SetEndFlag (t : PackageTable) : PackageTable :=
  { t with CurrentContent := t.CurrentContent ++ [PackageTable.dummy] }

/-- PlatformTable state. -/
structure PlatformTable where
  CurrentContent : List DscLine
  ID : Int
deriving DecidableEq, Repr

/-- Fresh PlatformTable as produced by the constructor. -/
def PlatformTable.init : PlatformTable := { CurrentContent := [], ID := 0 }

/-- Class attribute PlatformTable._DUMMY_. -/
def PlatformTable.dummy : DscLine :=
  { ID := -1, Model := -1, Value1 := "====", Value2 := "====", Value3 := "====",
    Scope1 := "====", Scope2 := "====", Scope3 := "====", BelongsToItem := -1,
    FromItem := -1, StartLine := -1, StartColumn := -1, EndLine := -1, EndColumn := -1,
    Comment := "", Condition := "", Included := "", Enabled := 0 }

/-- PlatformTable.Insert; no wrap-around check on the id counter. -/
def PlatformTable.Insert (t : PlatformTable) (Model : Int) (V1 V2 V3 S1 S2 S3 : String)
    (BelongsToItem FromItem StartLine StartColumn EndLine EndColumn : Int)
    (Comment Condition Included : String) (Enabled : Int) : PlatformTable × Int :=
  let newID := t.ID + ID_STEP
  let row : DscLine :=
    { ID := newID, Model := Model, Value1 := pyStrip V1, Value2 := pyStrip V2,
      Value3 := pyStrip V3, Scope1 := pyStrip S1, Scope2 := pyStrip S2,
      Scope3 := pyStrip S3, BelongsToItem := BelongsToItem, FromItem := FromItem,
      StartLine := StartLine, StartColumn := StartColumn, EndLine := EndLine,
      EndColumn := EndColumn, Comment := pyStrip Comment, Condition := pyStrip Condition,
      Included := pyStrip Included, Enabled := Enabled }
  ({ CurrentContent := t.CurrentContent ++ [row], ID := newID }, newID)

/-- Scope2 filter set of PlatformTable.Query: COMMON and DEFAULT always
match, a filter of the form X.Y additionally matches COMMON.Y, and the
filter itself matches. -/
def dscScope2Match (s2 : String) (recScope2 : String) : Bool :=
  let base := recScope2 == "COMMON" || recScope2 == "DEFAULT" || recScope2 == s2
  match (s2.toList.findIdx? (· = '.')) with
  | some idx => base || recScope2 == (TAB_COMMON ++ String.mk (s2.toList.drop idx))
  | none => base

/-- PlatformTable.Query.  When no BelongsToItem filter is given, only
records with negative BelongsToItem are kept (component sub-section records
are excluded from default queries). -/
def PlatformTable.Query (t : PlatformTable) (Model : Int)
    (Scope1 Scope2 : Option String) (BelongsToItem FromItem : Option Int) : List DscLine :=
  let result : List DscLine :=
    t.CurrentContent.filter (fun item => item.Model == Model && pyTruthy item.Enabled)
  let result : List DscLine := match Scope1 with
    | some s1 =>
        if s1 ≠ TAB_ARCH_COMMON then
          result.filter (fun item => item.Scope1 == "COMMON" || item.Scope1 == s1)
        else result
    | none => result
  let result : List DscLine := match Scope2 with
    | some s2 =>
        if s2 ≠ "" ∧ s2 ≠ TAB_COMMON then
          result.filter (fun item => dscScope2Match s2 item.Scope2)
        else result
    | none => result
  let result : List DscLine := match BelongsToItem with
    | some b => result.filter (fun item => item.BelongsToItem == b)
    | none => result.filter (fun item => item.BelongsToItem < 0)
  match FromItem with
  | some f => result.filter (fun item => item.FromItem == f)
  | none => result

/-- MetaFileTable.GetAll specialised to PlatformTable. -/
def PlatformTable.GetAll (t : PlatformTable) : List DscLine :=
  t.CurrentContent.filter (fun item => item.ID ≥ 0 && pyTruthy item.Enabled)

/-- MetaFileTable.SetEndFlag specialised to PlatformTable. -/
def PlatformTable.SetEndFlag (t : PlatformTable) : PlatformTable :=
  { t with CurrentContent := t.CurrentContent ++ [PlatformTable.dummy] }

/-- PlatformTable.DisableComponent: disables the record with the given id
and every record whose BelongsToItem equals that id. -/
def PlatformTable.DisableComponent (t : PlatformTable) (compId : Int) : PlatformTable :=
  { t with CurrentContent := t.CurrentContent.map (fun item =>
      if item.ID == compId || item.BelongsToItem == compId then { item with Enabled := 0 }
      else item) }

/-- Iterated ModuleTable.Insert with fixed plain arguments, used to reach
concrete counter states. -/
def ModuleTable.insertN (t : ModuleTable) : Nat → ModuleTable
  | 0 => t
  | n + 1 => ((ModuleTable.insertN t n).Insert MODEL_EFI_SOURCE_FILE "a" "" "" "COMMON" "COMMON"
      (-1) (-1) (-1) (-1) (-1) 1).1

/-! ## Store lemmas -/

/-- Every record returned by ModuleTable.Query passes the base model/enabled
filter: its Enabled field is Python-truthy. -/
theorem ModuleTable.mem_query_truthy (t : ModuleTable) (M : Int)
    (A P : Option String) (B : Option Int) (r : InfLine)
    (h : r ∈ t.Query M A P B) : r.Enabled ≠ 0 := by
  unfold ModuleTable.Query at h
  rcases A with _ | a <;> rcases P with _ | p <;> rcases B with _ | b <;>
    simp only [] at h
  all_goals try split_ifs at h
  all_goals simp_all [List.mem_filter, pyTruthy]

/-- Every record returned by PlatformTable.Query passes the base
model/enabled filter: its Enabled field is Python-truthy. -/
theorem PlatformTable.mem_query_enabled (t : PlatformTable) (M : Int)
    (S1 S2 : Option String) (B F : Option Int) (r : DscLine)
    (h : r ∈ t.Query M S1 S2 B F) : r.Enabled ≠ 0 := by
  unfold PlatformTable.Query at h
  rcases S1 with _ | s1 <;> rcases S2 with _ | s2 <;> rcases B with _ | b <;>
    rcases F with _ | f <;> simp only [] at h
  all_goals try split_ifs at h
  all_goals simp_all [List.mem_filter, pyTruthy]

/-- Every record returned by PackageTable.Query satisfies the base filter
condition Enabled greater or equal 0 (which does not exclude the Python
False value 0). -/
theorem PackageTable.mem_query_ge (t : PackageTable) (M : Int)
    (A : Option String) (r : DecLine)
    (h : r ∈ t.Query M A) : r.Enabled ≥ 0 := by
  unfold PackageTable.Query at h
  rcases A with _ | a <;> simp only [] at h
  all_goals try split_ifs at h
  all_goals simp_all [List.mem_filter]

/-- BelongsToItem facts about PlatformTable.Query: with no BelongsToItem
filter only records with negative BelongsToItem survive; with an explicit
filter only records with exactly that BelongsToItem survive. -/
theorem PlatformTable.mem_query_belongs (t : PlatformTable) (M : Int)
    (S1 S2 : Option String) (B F : Option Int) (r : DscLine)
    (h : r ∈ t.Query M S1 S2 B F) :
    (B = none → r.BelongsToItem < 0) ∧ (∀ k, B = some k → r.BelongsToItem = k) := by
  unfold PlatformTable.Query at h
  rcases S1 with _ | s1 <;> rcases S2 with _ | s2 <;> rcases B with _ | b <;>
    rcases F with _ | f <;> simp only [] at h
  all_goals try split_ifs at h
  all_goals simp_all [List.mem_filter]

/-- ModuleTable.insertN keeps the id counter equal to the number of inserts
while it stays below the wrap-around bound. -/
theorem ModuleTable.insertN_ID (n : Nat) (hn : n ≤ 100001009) :
    (ModuleTable.insertN ModuleTable.init n).ID = n := by
  induction n with
  | zero => rfl
  | succ m ih =>
      have hm : m ≤ 100001009 := Nat.le_of_succ_le hn
      have hid := ih hm
      show ((ModuleTable.insertN ModuleTable.init m).Insert MODEL_EFI_SOURCE_FILE
        "a" "" "" "COMMON" "COMMON" (-1) (-1) (-1) (-1) (-1) 1).1.ID = (m + 1 : Nat)
      simp only [ModuleTable.Insert, ID_STEP, MODEL_FILE_INF, ID_MAX, hid]
      have hlt : ¬ ((m : Int) + 1 ≥ 1011 + 99999999) := by
        have : (m : Int) ≤ 100001009 := by exact_mod_cast hm
        omega
      rw [if_neg hlt]
      push_cast
      ring

/-! ## Claim C1 -/

/-- Claim C1 counterexample: a record inserted into a PackageTable (the
P-shape store) with enabled = False is returned by Query, because the query
filter keeps records with Enabled greater or equal 0 and the Python value
False compares equal to 0.  This refutes the claim that for every record
store shape a disabled record is never contained in a query result. -/
theorem C1_counterexample :
    ((PackageTable.Insert PackageTable.init MODEL_EFI_GUID "n" "v" "" "COMMON" "COMMON"
      (-1) (-1) (-1) 0 (-1) 0).1.Query MODEL_EFI_GUID none).map DecLine.Enabled = [0] := by
  decide

/-- Claim C1 amended: for the I-shape (ModuleTable) and D-shape
(PlatformTable) stores every query result record has Python-truthy Enabled,
so enabled = False records are omitted; for the P-shape (PackageTable) the
query only guarantees Enabled greater or equal 0, which does not omit
enabled = False records. -/
theorem C1_theorem :
    (∀ (t : ModuleTable) (M : Int) (A P : Option String) (B : Option Int) (r : InfLine),
       r ∈ t.Query M A P B → r.Enabled ≠ 0) ∧
    (∀ (t : PlatformTable) (M : Int) (S1 S2 : Option String) (B F : Option Int) (r : DscLine),
       r ∈ t.Query M S1 S2 B F → r.Enabled ≠ 0) ∧
    (∀ (t : PackageTable) (M : Int) (A : Option String) (r : DecLine),
       r ∈ t.Query M A → r.Enabled ≥ 0) :=
  ⟨fun t M A P B r h => ModuleTable.mem_query_truthy t M A P B r h,
   fun t M S1 S2 B F r h => PlatformTable.mem_query_enabled t M S1 S2 B F r h,
   fun t M A r h => PackageTable.mem_query_ge t M A r h⟩

/-- Concrete one-record ModuleTable used by the C1 witness. -/
def tableC1 : ModuleTable :=
  (ModuleTable.Insert ModuleTable.init MODEL_EFI_GUID "n" "v" "" "COMMON" "COMMON"
    (-1) (-1) (-1) 0 (-1) 1).1

/-- Concrete record of tableC1 used by the C1 witness. -/
def rowC1 : InfLine :=
  { ID := 1, Model := MODEL_EFI_GUID, Value1 := "n", Value2 := "v", Value3 := "",
    Scope1 := "COMMON", Scope2 := "COMMON", BelongsToItem := -1, StartLine := -1,
    StartColumn := -1, EndLine := 0, EndColumn := -1, Enabled := 1 }

/-- Claim C1 witness: instantiation of the amended claim at a concrete
one-record table. -/
theorem C1_witness :
    rowC1 ∈ tableC1.Query MODEL_EFI_GUID none none none ∧ rowC1.Enabled ≠ 0 :=
  ⟨by decide, C1_theorem.1 tableC1 MODEL_EFI_GUID none none none rowC1 (by decide)⟩

/-! ## Claim C3 -/

/-- Claim C3 counterexample: after 100001009 inserts into a fresh
ModuleTable the id counter reads 100001009 (that insert returned
100001009), and the next insert returns 1012 = MODEL_FILE_INF + 1 because
the counter wraps at MODEL_FILE_INF + _ID_MAX_; the later id is smaller
than the earlier one and the counter did not advance by 1, refuting strict
monotonicity for the I-shape table. -/
theorem C3_counterexample :
    (ModuleTable.insertN ModuleTable.init 100001009).ID = 100001009 ∧
    ((ModuleTable.insertN ModuleTable.init 100001009).Insert MODEL_EFI_SOURCE_FILE
      "a" "" "" "COMMON" "COMMON" (-1) (-1) (-1) (-1) (-1) 1).2 = 1012 ∧
    (1012 : Int) < 100001009 := by
  have hID : (ModuleTable.insertN ModuleTable.init 100001009).ID = 100001009 :=
    ModuleTable.insertN_ID 100001009 (by norm_num)
  refine ⟨hID, ?_, by norm_num⟩
  simp only [ModuleTable.Insert, ID_STEP, MODEL_FILE_INF, ID_MAX, hID]
  norm_num

/-- Claim C3 amended: for the D-shape table (PlatformTable) each insert
returns exactly the previous counter plus 1, so ids strictly increase and
(assuming every stored id is at most the counter, which inserts preserve)
the fresh id differs from every live id.  For the I-shape table
(ModuleTable) the same holds only while the incremented counter is below
MODEL_FILE_INF + _ID_MAX_; at that bound the counter wraps to
MODEL_FILE_INF + 1. -/
theorem C3_theorem :
    (∀ (t : PlatformTable) (M : Int) (V1 V2 V3 S1 S2 S3 : String)
       (B F SL SC EL EC : Int) (C Cd I : String) (E : Int),
       (t.Insert M V1 V2 V3 S1 S2 S3 B F SL SC EL EC C Cd I E).2 = t.ID + 1) ∧
    (∀ (t : PlatformTable) (M : Int) (V1 V2 V3 S1 S2 S3 : String)
       (B F SL SC EL EC : Int) (C Cd I : String) (E : Int),
       (∀ r ∈ t.CurrentContent, r.ID ≤ t.ID) →
       (∀ r ∈ t.CurrentContent, r.ID ≠ (t.Insert M V1 V2 V3 S1 S2 S3 B F SL SC EL EC C Cd I E).2) ∧
       (∀ r ∈ (t.Insert M V1 V2 V3 S1 S2 S3 B F SL SC EL EC C Cd I E).1.CurrentContent,
          r.ID ≤ (t.Insert M V1 V2 V3 S1 S2 S3 B F SL SC EL EC C Cd I E).1.ID)) ∧
    (∀ (t : ModuleTable) (M : Int) (V1 V2 V3 S1 S2 : String) (B SL SC EL EC E : Int),
       t.ID + 1 < MODEL_FILE_INF + ID_MAX →
       (t.Insert M V1 V2 V3 S1 S2 B SL SC EL EC E).2 = t.ID + 1) := by
  refine ⟨?_, ?_, ?_⟩
  · intro t M V1 V2 V3 S1 S2 S3 B F SL SC EL EC C Cd I E
    simp [PlatformTable.Insert, ID_STEP]
  · intro t M V1 V2 V3 S1 S2 S3 B F SL SC EL EC C Cd I E hinv
    constructor
    · intro r hr
      have h1 := hinv r hr
      simp only [PlatformTable.Insert, ID_STEP]
      omega
    · intro r hr
      simp only [PlatformTable.Insert, ID_STEP, List.mem_append, List.mem_singleton] at hr ⊢
      rcases hr with hr | hr
      · have := hinv r hr
        omega
      · subst hr
        simp
  · intro t M V1 V2 V3 S1 S2 B SL SC EL EC E hlt
    simp only [ModuleTable.Insert, ID_STEP]
    rw [if_neg (by omega)]

/-- Claim C3 witness: instantiation of the amended claim at a fresh
PlatformTable and a fresh ModuleTable. -/
theorem C3_witness :
    (PlatformTable.Insert PlatformTable.init MODEL_EFI_SKU_ID "0" "DEFAULT" "" "COMMON"
      "COMMON" "STANDARD" (-1) (-1) 1 (-1) 1 (-1) "" "" "" 1).2 = 1 ∧
    (ModuleTable.init.ID + 1 < MODEL_FILE_INF + ID_MAX ∧
     (ModuleTable.Insert ModuleTable.init MODEL_EFI_SOURCE_FILE "a" "" "" "COMMON" "COMMON"
       (-1) (-1) (-1) (-1) (-1) 1).2 = ModuleTable.init.ID + 1) := by
  refine ⟨?_, by decide, ?_⟩
  · have h := C3_theorem.1 PlatformTable.init MODEL_EFI_SKU_ID "0" "DEFAULT" "" "COMMON"
      "COMMON" "STANDARD" (-1) (-1) 1 (-1) 1 (-1) "" "" "" 1
    simpa [PlatformTable.init] using h
  · exact C3_theorem.2.2 ModuleTable.init MODEL_EFI_SOURCE_FILE "a" "" "" "COMMON" "COMMON"
      (-1) (-1) (-1) (-1) (-1) 1 (by decide)

/-! ## Claim C10 -/

/-- Claim C10: a D-shape query without an explicit belongs_to filter
returns only records with negative belongs_to_item, and a query with an
explicit belongs_to filter returns only records whose belongs_to_item
equals the filter, so component sub-section records are reachable only by
querying with their parent's id. -/
theorem C10_theorem :
    (∀ (t : PlatformTable) (M : Int) (S1 S2 : Option String) (F : Option Int) (r : DscLine),
       r ∈ t.Query M S1 S2 none F → r.BelongsToItem < 0) ∧
    (∀ (t : PlatformTable) (M : Int) (S1 S2 : Option String) (k : Int) (F : Option Int)
       (r : DscLine), r ∈ t.Query M S1 S2 (some k) F → r.BelongsToItem = k) := by
  constructor
  · intro t M S1 S2 F r h
    exact (PlatformTable.mem_query_belongs t M S1 S2 none F r h).1 rfl
  · intro t M S1 S2 k F r h
    exact (PlatformTable.mem_query_belongs t M S1 S2 (some k) F r h).2 k rfl

/-- Concrete two-record PlatformTable used by the C10 witness: a component
record (id 1, top level) and a sub-section record owned by it. -/
def tableC10 : PlatformTable :=
  let t1 := (PlatformTable.Insert PlatformTable.init MODEL_META_DATA_COMPONENT "M.inf" "" ""
    "COMMON" "COMMON" "STANDARD" (-1) (-1) 1 (-1) 1 (-1) "" "" "" 1).1
  (PlatformTable.Insert t1 MODEL_EFI_LIBRARY_CLASS "Lib" "P.inf" ""
    "COMMON" "COMMON" "STANDARD" 1 (-1) 2 (-1) 2 (-1) "" "" "" 1).1

/-- Claim C10 witness: on the concrete table, the component is returned by
the default query (and has negative belongs_to_item by the theorem), and
the sub-section record is returned when filtering by the parent id (and its
belongs_to_item is the parent id by the theorem). -/
theorem C10_witness :
    (∃ r ∈ tableC10.Query MODEL_META_DATA_COMPONENT none none none none,
       r.BelongsToItem < 0) ∧
    (∃ r ∈ tableC10.Query MODEL_EFI_LIBRARY_CLASS none none (some 1) none,
       r.BelongsToItem = 1) := by
  constructor
  · refine ⟨{ ID := 1, Model := MODEL_META_DATA_COMPONENT, Value1 := "M.inf", Value2 := "",
              Value3 := "", Scope1 := "COMMON", Scope2 := "COMMON", Scope3 := "STANDARD",
              BelongsToItem := -1, FromItem := -1, StartLine := 1, StartColumn := -1,
              EndLine := 1, EndColumn := -1, Comment := "", Condition := "", Included := "",
              Enabled := 1 }, by decide, ?_⟩
    exact C10_theorem.1 tableC10 MODEL_META_DATA_COMPONENT none none none _ (by decide)
  · refine ⟨{ ID := 2, Model := MODEL_EFI_LIBRARY_CLASS, Value1 := "Lib", Value2 := "P.inf",
              Value3 := "", Scope1 := "COMMON", Scope2 := "COMMON", Scope3 := "STANDARD",
              BelongsToItem := 1, FromItem := -1, StartLine := 2, StartColumn := -1,
              EndLine := 2, EndColumn := -1, Comment := "", Condition := "", Included := "",
              Enabled := 1 }, by decide, ?_⟩
    exact C10_theorem.2 tableC10 MODEL_EFI_LIBRARY_CLASS none none 1 none _ (by decide)

/-! ## src/Common/Misc.py -/

/-- Further constants from Common/DataType.py (not under src/). -/
def TAB_VOID : String := "VOID*"

def TAB_UINT8 : String := "UINT8"

def TAB_UINT16 : String := "UINT16"

def TAB_UINT32 : String := "UINT32"

def TAB_UINT64 : String := "UINT64"

/-- MAX_VAL_TYPE of Common/DataType.py: unsigned maximum per datum type. -/
def MAX_VAL_TYPE (t : String) : Int :=
  if t = TAB_UINT8 then 255
  else if t = TAB_UINT16 then 65535
  else if t = TAB_UINT32 then 4294967295
  else if t = TAB_UINT64 then 18446744073709551615
  else 0

/-- Single-quote character, written via its code point. -/
def squote : Char := Char.ofNat 39

/-- Opening brace character, written via its code point. -/
def lbrace : Char := Char.ofNat 123

/-- Closing brace character, written via its code point. -/
def rbrace : Char := Char.ofNat 125

/-- Scanner state of the character loop in AnalyzePcdExpression:
InSingleQuoteStr, InDoubleQuoteStr and the parenthesis counter Pair. -/
structure PcdScanState where
  inSingle : Bool
  inDouble : Bool
  pair : Int
deriving DecidableEq, Repr

/-- Per-character state update of the AnalyzePcdExpression loop.  prev is
Data[Index - 1]; for Index = 0 Python indexes Data[-1], the last character
of the string, which the callers pass accordingly. -/
def pcdStep (prev ch : Char) (st : PcdScanState) : PcdScanState :=
  if ch = '"' && !st.inSingle then
    (if prev ≠ '\\' then { st with inDouble := !st.inDouble } else st)
  else if ch = squote && !st.inDouble then
    (if prev ≠ '\\' then { st with inSingle := !st.inSingle } else st)
  else if ch = '(' && !(st.inSingle || st.inDouble) then { st with pair := st.pair + 1 }
  else if ch = ')' && !(st.inSingle || st.inDouble) then { st with pair := st.pair - 1 }
  else st

/-- Protection test of the AnalyzePcdExpression loop: the current character
is inside parentheses or inside a quoted string (evaluated after the state
update for that character). -/
def protOf (st : PcdScanState) : Bool :=
  st.pair > 0 || st.inSingle || st.inDouble

/-- Character transformation of the AnalyzePcdExpression loop: builds NewStr
by replacing a protected TAB_VALUE_SPLIT character with a dash. -/
def pcdNewStrAux : List Char → Char → PcdScanState → List Char
  | [], _, _ => []
  | ch :: rest, prev, st =>
      let st1 := pcdStep prev ch st
      (if protOf st1 && ch = '|' then '-' else ch) :: pcdNewStrAux rest ch st1

/-- NewStr of AnalyzePcdExpression.  The initial previous character is the
last character of the data (Python Data[-1] for Index = 0). -/
def pcdNewStr (data : List Char) : List Char :=
  match data.getLast? with
  | none => []
  | some last => pcdNewStrAux data last { inSingle := false, inDouble := false, pair := 0 }

/-- Scanner-state trace of the AnalyzePcdExpression loop: the state after
each character. -/
def pcdStatesAux : List Char → Char → PcdScanState → List PcdScanState
  | [], _, _ => []
  | ch :: rest, prev, st =>
      let st1 := pcdStep prev ch st
      st1 :: pcdStatesAux rest ch st1

/-- Scanner-state trace starting from the initial state. -/
def pcdStates (data : List Char) : List PcdScanState :=
  match data.getLast? with
  | none => []
  | some last => pcdStatesAux data last { inSingle := false, inDouble := false, pair := 0 }

/-- Field extraction of AnalyzePcdExpression: the original characters are
sliced at the positions where NewStr holds the TAB_VALUE_SPLIT delimiter
(equivalent to the find/slice loop of the source, walking both strings in
lockstep). -/
def pcdSliceFields : List Char → List Char → List Char → List (List Char)
  | s :: ss, n :: ns, acc =>
      if n = '|' then acc.reverse :: pcdSliceFields ss ns []
      else pcdSliceFields ss ns (s :: acc)
  | _, _, acc => [acc.reverse]

/-- AnalyzePcdExpression of src/Common/Misc.py.  The random 8-character
sentinel produced by sample() is passed in as the ranStr parameter.  The
function substitutes ranStr for escaped backslash pairs, strips the
setting, replaces TAB_VALUE_SPLIT characters that are inside quotes or
parentheses with a dash, splits the original characters at the remaining
delimiter positions, strips each field and restores the backslash pairs
(str.replace is the identity when ranStr does not occur, matching the
conditional replacement of the source). -/
def AnalyzePcdExpression (ranStr : String) (Setting : String) : List String :=
  let setting := pyStrip (pyReplace Setting "\\\\" ranStr)
  let data := setting.toList
  let newStr := pcdNewStr data
  let fields := (pcdSliceFields data newStr []).map (fun f => pyStrip (String.mk f))
  fields.map (fun ch => pyReplace ch ranStr "\\\\")

/-- StructPattern of src/Common/Misc.py, the compiled regular expression
matching a C-identifier-shaped datum type name anchored at the end (the
re.match test; a single trailing newline is admitted by the end anchor). -/
def StructPatternMatch (s : String) : Bool :=
  match s.toList with
  | [] => false
  | c :: rest =>
      let rest1 := if rest.getLast? = some '\n' then rest.dropLast else rest
      (c = '_' || c.isAlpha) && rest1.all (fun d => d.isAlphanum || d = '_')

/-- Success test of the Python call int(s, 16) preceded by
s.upper().startswith("0X"): optional sign, optional 0x/0X prefix, then at
least one hexadecimal digit (surrounding whitespace tolerated). -/
def pyIntHexOk (s : String) : Bool :=
  let l := (s.toList.dropWhile isPyWs).reverse.dropWhile isPyWs |>.reverse
  let l := match l with
    | '+' :: r => r
    | '-' :: r => r
    | r => r
  let l := match l with
    | '0' :: x :: r => if x = 'x' || x = 'X' then r else '0' :: x :: r
    | r => r
  !l.isEmpty && l.all (fun c => c.isDigit || ('a' ≤ c && c ≤ 'f') || ('A' ≤ c && c ≤ 'F'))

/-- Success test of the Python call int(s) in base 10: optional sign and at
least one decimal digit (surrounding whitespace tolerated). -/
def pyIntDecOk (s : String) : Bool :=
  let l := (s.toList.dropWhile isPyWs).reverse.dropWhile isPyWs |>.reverse
  let l := match l with
    | '+' :: r => r
    | '-' :: r => r
    | r => r
  !l.isEmpty && l.all Char.isDigit

/-- Size validity test of AnalyzeDscPcd: int(Size, 16) when the size starts
with 0X after upper-casing, int(Size) otherwise; the try block only tests
parseability. -/
def dscSizeOk (size : String) : Bool :=
  if pyStartsWith (pyToUpper size) "0X" then pyIntHexOk size else pyIntDecOk size

/-- AnalyzeDscPcd of src/Common/Misc.py.  Returns the field list, the
validity flag and the index of the PCD value within the field list.  The
random sentinel of the underlying AnalyzePcdExpression is the ranStr
parameter; DataType defaults to the empty string at call sites that omit
it. -/
def AnalyzeDscPcd (ranStr : String) (Setting : String) (PcdType : Int)
    (DataType : String) : List String × Bool × Nat :=
  let FieldList := AnalyzePcdExpression ranStr Setting
  if PcdType = MODEL_PCD_FIXED_AT_BUILD ∨ PcdType = MODEL_PCD_PATCHABLE_IN_MODULE ∨
     PcdType = MODEL_PCD_DYNAMIC_DEFAULT ∨ PcdType = MODEL_PCD_DYNAMIC_EX_DEFAULT then
    let Value := FieldList.headD ""
    let f1 := FieldList.getD 1 ""
    let DataType1 := if FieldList.length > 1 ∧ f1 ≠ "" then f1 else DataType
    let valid1 : Bool :=
      !(FieldList.length > 1 && f1 != "" && f1 != TAB_VOID && !StructPatternMatch f1)
    let Size := if FieldList.length > 2 then FieldList.getD 2 "" else ""
    let valid2 : Bool :=
      if valid1 then
        (if DataType1 = "" then FieldList.length ≤ 1 else FieldList.length ≤ 3)
      else false
    let sizeBad := Size ≠ "" && !dscSizeOk Size
    let valid3 := valid2 && !sizeBad
    let SizeOut := if sizeBad then "-1" else Size
    ([Value, DataType1, SizeOut], valid3, 0)
  else if PcdType = MODEL_PCD_FEATURE_FLAG then
    let Value := FieldList.headD ""
    (([Value, DataType, ""] : List String), FieldList.length ≤ 1, 0)
  else if PcdType = MODEL_PCD_DYNAMIC_VPD ∨ PcdType = MODEL_PCD_DYNAMIC_EX_VPD then
    let VpdOffset := FieldList.headD ""
    let Value := if DataType ≠ TAB_VOID then
        (if FieldList.length > 1 then FieldList.getD 1 "" else "")
      else (if FieldList.length > 2 then FieldList.getD 2 "" else "")
    let Size := if DataType = TAB_VOID ∧ FieldList.length > 1 then FieldList.getD 1 "" else ""
    let valid1 : Bool :=
      if DataType = "" then FieldList.length ≤ 1 else FieldList.length ≤ 3
    let sizeBad := Size ≠ "" && !dscSizeOk Size
    let SizeOut := if sizeBad then "-1" else Size
    ([VpdOffset, SizeOut, Value], valid1 && !sizeBad, 2)
  else if PcdType = MODEL_PCD_DYNAMIC_HII ∨ PcdType = MODEL_PCD_DYNAMIC_EX_HII then
    let valid : Bool := 3 ≤ FieldList.length && FieldList.length ≤ 5
    let HiiString := FieldList.headD ""
    let Guid := if FieldList.length > 1 then FieldList.getD 1 "" else ""
    let Offset := if FieldList.length > 2 then FieldList.getD 2 "" else ""
    let Value := if FieldList.length > 3 then FieldList.getD 3 "" else ""
    let Attribute := if FieldList.length > 4 then FieldList.getD 4 "" else ""
    ([HiiString, Guid, Offset, Value, Attribute], valid, 3)
  else ([], false, 0)

/-- Character set test for the body of a quoted VOID* PCD value:
string.printable minus the vertical tab, plus backspace and the null
character. -/
def inPcdPrintset (c : Char) : Bool :=
  (32 ≤ c.toNat && c.toNat ≤ 126) || c = '\t' || c = '\n' || c = '\r' ||
    c = Char.ofNat 12 || c = Char.ofNat 8 || c = Char.ofNat 0

/-- Match test of the compiled expression ValueRe in CheckPcdDatum, the raw
pattern being backslash-s star, optional L, a double quote, any characters
other than newline, a double quote, backslash-s star and the end anchor. -/
def checkPcdValueReMatch (s : String) : Bool :=
  let l := s.toList.dropWhile isPyWs
  let l := match l with
    | 'L' :: '"' :: r => '"' :: r
    | r => r
  match l with
  | '"' :: rest =>
      (match rest.reverse.dropWhile isPyWs with
       | '"' :: midRev => !midRev.contains '\n'
       | _ => false)
  | _ => false

/-- Evaluation of the Python call int(s, 0): optional surrounding
whitespace, optional sign, then either a 0x/0o/0b prefixed literal, a plain
zero run, or a nonzero decimal number without leading zeros. -/
def pyIntBase0 (s : String) : Option Int :=
  let l := (s.toList.dropWhile isPyWs).reverse.dropWhile isPyWs |>.reverse
  let (sign, l) : Int × List Char := match l with
    | '+' :: r => (1, r)
    | '-' :: r => (-1, r)
    | r => (1, r)
  let digitsVal (base : Nat) (ds : List Char) (dok : Char → Bool) (dval : Char → Nat) :
      Option Int :=
    if !ds.isEmpty && ds.all dok then
      some (sign * (ds.foldl (fun acc c => acc * base + dval c) 0 : Nat))
    else none
  match l with
  | '0' :: x :: r =>
      if x = 'x' || x = 'X' then
        digitsVal 16 r (fun c => c.isDigit || ('a' ≤ c && c ≤ 'f') || ('A' ≤ c && c ≤ 'F'))
          (fun c => if c.isDigit then c.toNat - 48
            else if 'a' ≤ c && c ≤ 'f' then c.toNat - 87 else c.toNat - 55)
      else if x = 'o' || x = 'O' then
        digitsVal 8 r (fun c => '0' ≤ c && c ≤ '7') (fun c => c.toNat - 48)
      else if x = 'b' || x = 'B' then
        digitsVal 2 r (fun c => c = '0' || c = '1') (fun c => c.toNat - 48)
      else if (x :: r).all (· = '0') then some 0
      else none
  | ['0'] => some 0
  | [] => none
  | d :: r =>
      if d.isDigit && d ≠ '0' && r.all Char.isDigit then
        digitsVal 10 (d :: r) Char.isDigit (fun c => c.toNat - 48)
      else none

/-- CheckPcdDatum of src/Common/Misc.py.  Returns the validity flag and the
cause string.  The cause texts of the failure branches are abbreviated from
the source format strings; the success causes (the empty string and
StructurePcd) are kept verbatim because a caller branches on them.  The
enclosure test keeps the Python operator precedence of the source: a value
beginning with L-quote is accepted without a check of its last
character. -/
def CheckPcdDatum (Ty Value : String) : Bool × String :=
  if Ty = TAB_VOID then
    if !(((pyStartsWith Value "L\"" || pyStartsWith Value "\"") && pyEndsWith Value "\"") ||
         (pyStartsWith Value (String.mk [lbrace]) && pyEndsWith Value (String.mk [rbrace])) ||
         (pyStartsWith Value (String.mk ['L', squote]) ||
           (pyStartsWith Value (String.mk [squote]) && pyEndsWith Value (String.mk [squote])))) then
      (false, "Invalid value of type VOID*; must be a brace array, a quoted string or an L-quoted unicode string")
    else if checkPcdValueReMatch Value then
      let body := if pyStartsWith Value "L" then ((Value.toList.drop 2).dropLast)
        else ((Value.toList.drop 1).dropLast)
      if !(body.all inPcdPrintset) then
        (false, "Invalid PCD string value; must consist of printable characters")
      else (true, "")
    else (true, "")
  else if Ty = "BOOLEAN" then
    if Value ∈ (["TRUE", "True", "true", "0x1", "0x01", "1",
                 "FALSE", "False", "false", "0x0", "0x00", "0"] : List String) then
      (true, "")
    else (false, "Invalid value of type BOOLEAN")
  else if Ty = TAB_UINT8 ∨ Ty = TAB_UINT16 ∨ Ty = TAB_UINT32 ∨ Ty = TAB_UINT64 then
    let Value1 := if pyStartsWith Value "0" && !(pyStartsWith (pyToLower Value) "0x") &&
        Value.toList.length > 1 && (String.mk (Value.toList.dropWhile (· = '0'))) ≠ "" then
        String.mk (Value.toList.dropWhile (· = '0'))
      else Value
    match pyIntBase0 Value1 with
    | none => (false, "Invalid value; must be a hexadecimal, decimal or octal in C language format")
    | some v =>
        if Value1 ≠ "" ∧ v < 0 then (false, "PCD can not be set to a negative value")
        else if v > MAX_VAL_TYPE Ty then (false, "Too large PCD value")
        else (true, "")
  else (true, "StructurePcd")

/-! ## C8 and C9 lemmas -/

/-- NewStr has the same length as the scanned data. -/
theorem pcdNewStrAux_length (rest : List Char) : ∀ (prev : Char) (st : PcdScanState),
    (pcdNewStrAux rest prev st).length = rest.length := by
  induction rest with
  | nil => intro prev st; rfl
  | cons ch rest ih =>
      intro prev st
      simp [pcdNewStrAux, ih]

/-- The scanner-state trace has the same length as the scanned data. -/
theorem pcdStatesAux_length (rest : List Char) : ∀ (prev : Char) (st : PcdScanState),
    (pcdStatesAux rest prev st).length = rest.length := by
  induction rest with
  | nil => intro prev st; rfl
  | cons ch rest ih =>
      intro prev st
      simp [pcdStatesAux, ih]

/-- Pointwise description of the NewStr transformation: position i holds a
dash exactly when the original character is the delimiter and the scanner
state after that character is protected; otherwise the character is
copied. -/
theorem pcdNewStrAux_getD (rest : List Char) : ∀ (prev : Char) (st : PcdScanState) (i : Nat),
    i < rest.length →
    (pcdNewStrAux rest prev st).getD i ' ' =
      (if protOf ((pcdStatesAux rest prev st).getD i
            { inSingle := false, inDouble := false, pair := 0 }) && rest.getD i ' ' = '|'
       then '-' else rest.getD i ' ') := by
  induction rest with
  | nil => intro prev st i h; simp at h
  | cons ch rest ih =>
      intro prev st i h
      match i with
      | 0 => simp [pcdNewStrAux, pcdStatesAux]
      | j + 1 =>
          have hj : j < rest.length := by simpa using h
          simpa [pcdNewStrAux, pcdStatesAux] using ih ch (pcdStep prev ch st) j hj

/-! ## Claim C8 -/

/-- Claim C8: in AnalyzePcdExpression the delimiter positions used for the
field split are exactly the unprotected TAB_VALUE_SPLIT occurrences: a pipe
character that the quote/parenthesis scanner marks as protected (inside a
quoted string literal or inside parentheses) is replaced by a dash and
therefore never splits a field.  The concrete spec example splits the value
tail into exactly three fields through AnalyzeDscPcd and through
AnalyzePcdExpression. -/
theorem C8_theorem :
    (∀ (data : List Char) (i : Nat), i < data.length → data.getD i ' ' = '|' →
       ((pcdNewStr data).getD i ' ' = '-' ↔
         protOf ((pcdStates data).getD i
           { inSingle := false, inDouble := false, pair := 0 }) = true)) ∧
    AnalyzeDscPcd "Xq7Rt2Vz" "L\"a|b\"|VOID*|8" MODEL_PCD_FIXED_AT_BUILD "" =
      (["L\"a|b\"", "VOID*", "8"], true, 0) ∧
    AnalyzePcdExpression "Xq7Rt2Vz" "L\"a|b\"|VOID*|8" = ["L\"a|b\"", "VOID*", "8"] := by
  refine ⟨?_, by decide, by decide⟩
  intro data i h h2
  rcases data with _ | ⟨c, rest⟩
  · simp at h
  · have hne : (c :: rest) ≠ [] := by simp
    have hg : (c :: rest).getLast? = some ((c :: rest).getLast hne) :=
      List.getLast?_eq_getLast _ hne
    have haux := pcdNewStrAux_getD (c :: rest) ((c :: rest).getLast hne)
      { inSingle := false, inDouble := false, pair := 0 } i h
    rw [pcdNewStr, pcdStates, hg]
    simp only []
    rw [haux, h2]
    by_cases hp : protOf ((pcdStatesAux (c :: rest) ((c :: rest).getLast hne)
        { inSingle := false, inDouble := false, pair := 0 }).getD i
        { inSingle := false, inDouble := false, pair := 0 }) = true
    · simp [hp]
    · simp only [Bool.not_eq_true] at hp
      simp [hp]

/-- Claim C8 witness: the pipe at index 3 of a concrete value lies inside a
quoted string; the theorem instantiated there confirms it is replaced by a
dash rather than used as a split position. -/
theorem C8_witness :
    (3 < ("L\"a|b\"|c".toList).length ∧ ("L\"a|b\"|c".toList).getD 3 ' ' = '|') ∧
    ((pcdNewStr ("L\"a|b\"|c".toList)).getD 3 ' ' = '-' ↔
      protOf ((pcdStates ("L\"a|b\"|c".toList)).getD 3
        { inSingle := false, inDouble := false, pair := 0 }) = true) :=
  ⟨⟨by decide, by decide⟩, C8_theorem.1 ("L\"a|b\"|c".toList) 3 (by decide) (by decide)⟩

/-! ## Claim C9 -/

/-- Claim C9: the code accepts VOID* values that the claim requires to be
rejected.  A value beginning with an L-quote but not terminated by a quote
is accepted because of the operator precedence in the enclosure test, and a
single-quoted string containing a vertical tab is accepted because the
printable-character check only applies to double-quoted values; in both
cases CheckPcdDatum returns valid with an empty cause. -/
theorem C9_theorem :
    CheckPcdDatum TAB_VOID (String.mk ['L', squote, 'a', 'b', 'c']) = (true, "") ∧
    CheckPcdDatum TAB_VOID (String.mk [squote, 'a', Char.ofNat 11, 'b', squote]) = (true, "") := by
  constructor
  · decide
  · decide

/-! ## Error kinds and Python dictionaries -/

/-- Fatal parser exits (EdkLogger.error calls) and modelled Python runtime
failures.  The carried strings abbreviate the source message text. -/
inductive EdkError where
  | format (msg : String)
  | formatUnknown (msg : String)
  | fileRead (msg : String)
  | errorStatement (msg : String)
  | macroNotFound (name : String)
  | pyError (msg : String)
  | outOfFuel
deriving DecidableEq, Repr

/-- Insertion-ordered dictionary from names to values, modelling Python
dict. -/
abbrev Dict := List (String × String)

/-- Python dict lookup. -/
def dget? (d : Dict) (k : String) : Option String :=
  (d.find? (fun p => p.1 = k)).map (·.2)

/-- Python key membership test. -/
def dmem (d : Dict) (k : String) : Bool := d.any (fun p => p.1 = k)

/-- Python item assignment d[k] = v: overwrites in place or appends. -/
def dinsert (d : Dict) (k v : String) : Dict :=
  if d.any (fun p => p.1 = k) then d.map (fun p => if p.1 = k then (k, v) else p)
  else d ++ [(k, v)]

/-- Python dict.update: inserts every entry of the second dictionary. -/
def dupdate (d1 d2 : Dict) : Dict := d2.foldl (fun acc p => dinsert acc p.1 p.2) d1

/-- Substring containment test (Python in operator on strings). -/
def listContainsSub (s sub : List Char) : Bool :=
  match s with
  | [] => sub.isEmpty
  | _ :: rest => sub.isPrefixOf s || listContainsSub rest sub

/-- Python substring membership. -/
def pyContains (s sub : String) : Bool := listContainsSub s.toList sub.toList

/-! ## Modelled from the spec: Common/StringUtils.py and Common/GlobalData.py
helpers.  These repository modules are not under src/; the definitions
below follow the specification text (section 4.1 for the splitter and the
text cleaner, sections 3 and 4.5 for macro replacement, section 4.4 for
macro name syntax). -/

/-- Scanner state of the value splitter. -/
structure SplitState where
  inSingle : Bool
  inDouble : Bool
  paren : Int
  escaped : Bool
deriving DecidableEq, Repr

/-- Modelled from the spec: per-character state update of the splitter;
a backslash escapes the next character inside a string literal, quotes
toggle string state, parentheses nest. -/
def splitStep (st : SplitState) (c : Char) : SplitState :=
  if c = '\\' && (st.inSingle || st.inDouble) then { st with escaped := true }
  else if c = '"' && !st.inSingle then { st with inDouble := !st.inDouble }
  else if c = squote && !st.inDouble then { st with inSingle := !st.inSingle }
  else if c = '(' then { st with paren := st.paren + 1 }
  else if c = ')' then { st with paren := st.paren - 1 }
  else st

/-- Modelled from the spec: the splitting loop.  The delimiter is ignored
while inside quotes or inside parentheses; after maxSplit splits (when
positive) the remainder becomes the final field; every field is
stripped. -/
def gsvlAux (splitTag : Char) (maxSplit : Int) :
    List Char → SplitState → List Char → Int → List String
  | [], _, cur, _ => [pyStrip (String.mk cur.reverse)]
  | c :: rest, st, cur, count =>
      if st.escaped then gsvlAux splitTag maxSplit rest { st with escaped := false } (c :: cur) count
      else if !st.inSingle && !st.inDouble && st.paren = 0 && c = splitTag then
        (if maxSplit > 0 && count + 1 = maxSplit then
          [pyStrip (String.mk cur.reverse), pyStrip (String.mk rest)]
        else
          pyStrip (String.mk cur.reverse) :: gsvlAux splitTag maxSplit rest st [] (count + 1))
      else gsvlAux splitTag maxSplit rest (splitStep st c) (c :: cur) count

/-- Modelled from the spec: GetSplitValueList / SplitValueList, splitting a
value line on a delimiter while respecting string literals and parenthesis
nesting, with an optional maximum number of splits. -/
def GetSplitValueList (s : String) (splitTag : Char) (maxSplit : Int) : List String :=
  gsvlAux splitTag maxSplit s.toList
    { inSingle := false, inDouble := false, paren := 0, escaped := false } [] 0

/-- Modelled from the spec: macro name syntax [A-Z][A-Z0-9_]*. -/
def isMacroName (s : String) : Bool :=
  match s.toList with
  | [] => false
  | c :: rest => ('A' ≤ c && c ≤ 'Z') &&
      rest.all (fun d => ('A' ≤ d && d ≤ 'Z') || d.isDigit || d = '_')

/-- Scanner for macro references, fuel-bounded by the text length: finds
every non-overlapping occurrence of a dollar-parenthesised macro name. -/
def macroRefsAux : Nat → List Char → List String
  | 0, _ => []
  | _ + 1, [] => []
  | fuel + 1, '$' :: '(' :: rest =>
      let name := rest.takeWhile (fun c => ('A' ≤ c && c ≤ 'Z') || c.isDigit || c = '_')
      (match rest.drop name.length with
       | ')' :: rest2 =>
          if isMacroName (String.mk name) then
            String.mk name :: macroRefsAux fuel rest2
          else macroRefsAux fuel ('(' :: rest)
       | _ => macroRefsAux fuel ('(' :: rest))
  | fuel + 1, _ :: rest => macroRefsAux fuel rest

/-- Modelled from the spec: all macro references of the form dollar, open
parenthesis, macro name, close parenthesis occurring in a text
(gMacroRefPattern.findall). -/
def macroRefs (s : String) : List String := macroRefsAux (s.toList.length + 1) s.toList

/-- Reference text of a macro name: dollar, open parenthesis, name, close
parenthesis. -/
def macroRef (n : String) : String := "$(" ++ n ++ ")"

/-- Modelled from the spec: one substitution pass over the macro references
found in a text; an undefined reference raises when raiseErr is set and a
definition containing its own reference is skipped. -/
def replacePass : List String → String → Dict → Bool → Except EdkError String
  | [], s, _, _ => .ok s
  | n :: ns, s, macros, raiseErr =>
      match dget? macros n with
      | none =>
          if raiseErr then .error (.macroNotFound n)
          else replacePass ns s macros raiseErr
      | some v =>
          if pyContains v (macroRef n) then replacePass ns s macros raiseErr
          else replacePass ns (pyReplace s (macroRef n) v) macros raiseErr

/-- Modelled from the spec: ReplaceMacro, substituting macro references in
a text from the merged environment, iterating until a fixpoint with fuel
(the Python loop ends when a pass changes nothing). -/
def ReplaceMacroE : Nat → String → Dict → Bool → Except EdkError String
  | 0, s, _, _ => .ok s
  | fuel + 1, s, macros, raiseErr =>
      if s = "" || macros.isEmpty then .ok s
      else
        let refs := macroRefs s
        if refs.isEmpty then .ok s
        else do
          let s1 ← replacePass refs s macros raiseErr
          if s1 = s then .ok s
          else ReplaceMacroE fuel s1 macros raiseErr

/-- Fuel used for macro replacement at all call sites. -/
def macroFuel : Nat := 100

/-- Non-raising macro replacement (the default RaiseError=False path, which
never raises). -/
def ReplaceMacroNR (s : String) (macros : Dict) : String :=
  match ReplaceMacroE macroFuel s macros false with
  | .ok v => v
  | .error _ => s

/-- Comment-splitting scanner of the text cleaner: position of the first
comment character outside string literals. -/
def cleanScanAux : List Char → Bool → Bool → Nat → Option Nat
  | [], _, _, _ => none
  | c :: rest, inS, inD, i =>
      if c = '"' && !inS then cleanScanAux rest inS (!inD) (i + 1)
      else if c = squote && !inD then cleanScanAux rest (!inS) inD (i + 1)
      else if c = '#' && !(inS || inD) then some i
      else cleanScanAux rest inS inD (i + 1)

/-- Modelled from the spec: CleanString2 separates the comment portion from
the data portion of a stripped line; a comment character inside a string
literal does not start a comment; with the flag set a double slash is
recognised like the comment character. -/
def CleanString2 (line : String) (allowCppStyleComment : Bool) : String × String :=
  let l := pyStrip line
  let l := if allowCppStyleComment then pyReplace l "//" "#" else l
  match cleanScanAux l.toList false false 0 with
  | some i => (pyStrip (String.mk (l.toList.take i)), pyStrip (String.mk (l.toList.drop i)))
  | none => (l, "")

/-- Modelled from the spec: CleanString keeps only the data portion. -/
def CleanString (line : String) (buildOption : Bool) : String :=
  if buildOption then pyStrip line else (CleanString2 line false).1

/-! ## Section name constants and per-dialect section tables (the DataType
class dictionaries of src/parsers/MetaFileParser2.py; key strings follow
Common/DataType.py). -/

/-- Section names (upper-cased keys) with PCD scope items after the arch,
set SECTIONS_HAVE_ITEM_PCD_SET of Common/DataType.py (not under src/). -/
def SECTIONS_HAVE_ITEM_PCD_SET : List String :=
  ["PCDSDYNAMICDEFAULT", "PCDSDYNAMICVPD", "PCDSDYNAMICHII",
   "PCDSDYNAMICEXDEFAULT", "PCDSDYNAMICEXVPD", "PCDSDYNAMICEXHII"]

/-- Section names allowing items after the arch part, set
SECTIONS_HAVE_ITEM_AFTER_ARCH_SET of Common/DataType.py (not under
src/). -/
def SECTIONS_HAVE_ITEM_AFTER_ARCH_SET : List String :=
  ["LIBRARYCLASSES", "BUILDOPTIONS", "PCDSFIXEDATBUILD", "PCDSPATCHABLEINMODULE",
   "PCDSFEATUREFLAG", "PCDSDYNAMICEX", "PCDSDYNAMIC"] ++ SECTIONS_HAVE_ITEM_PCD_SET

/-- DscParser.DataType of src/parsers/MetaFileParser2.py. -/
def dscDataType : List (String × Int) :=
  [("SKUIDS", MODEL_EFI_SKU_ID),
   ("DEFAULTSTORES", MODEL_EFI_DEFAULT_STORES),
   ("LIBRARIES", MODEL_EFI_LIBRARY_INSTANCE),
   ("LIBRARYCLASSES", MODEL_EFI_LIBRARY_CLASS),
   ("BUILDOPTIONS", MODEL_META_DATA_BUILD_OPTION),
   ("PACKAGES", MODEL_META_DATA_PACKAGE),
   ("PCDSFIXEDATBUILD", MODEL_PCD_FIXED_AT_BUILD),
   ("PCDSPATCHABLEINMODULE", MODEL_PCD_PATCHABLE_IN_MODULE),
   ("PCDSFEATUREFLAG", MODEL_PCD_FEATURE_FLAG),
   ("PCDSDYNAMICDEFAULT", MODEL_PCD_DYNAMIC_DEFAULT),
   ("PCDSDYNAMICHII", MODEL_PCD_DYNAMIC_HII),
   ("PCDSDYNAMICVPD", MODEL_PCD_DYNAMIC_VPD),
   ("PCDSDYNAMICEXDEFAULT", MODEL_PCD_DYNAMIC_EX_DEFAULT),
   ("PCDSDYNAMICEXHII", MODEL_PCD_DYNAMIC_EX_HII),
   ("PCDSDYNAMICEXVPD", MODEL_PCD_DYNAMIC_EX_VPD),
   ("COMPONENTS", MODEL_META_DATA_COMPONENT),
   ("DEFINES", MODEL_META_DATA_HEADER),
   ("DEFINE", MODEL_META_DATA_DEFINE),
   ("EDK_GLOBAL", MODEL_META_DATA_GLOBAL_DEFINE),
   ("!INCLUDE", MODEL_META_DATA_INCLUDE),
   ("!IF", MODEL_META_DATA_CONDITIONAL_STATEMENT_IF),
   ("!IFDEF", MODEL_META_DATA_CONDITIONAL_STATEMENT_IFDEF),
   ("!IFNDEF", MODEL_META_DATA_CONDITIONAL_STATEMENT_IFNDEF),
   ("!ELSEIF", MODEL_META_DATA_CONDITIONAL_STATEMENT_ELSEIF),
   ("!ELSE", MODEL_META_DATA_CONDITIONAL_STATEMENT_ELSE),
   ("!ENDIF", MODEL_META_DATA_CONDITIONAL_STATEMENT_ENDIF),
   ("USEREXTENSIONS", MODEL_META_DATA_USER_EXTENSION),
   ("!ERROR", MODEL_META_DATA_CONDITIONAL_STATEMENT_ERROR)]

/-- InfParser.DataType of src/parsers/MetaFileParser2.py. -/
def infDataType : List (String × Int) :=
  [("UNKNOWN", MODEL_UNKNOWN),
   ("DEFINES", MODEL_META_DATA_HEADER),
   ("DEFINE", MODEL_META_DATA_DEFINE),
   ("BUILDOPTIONS", MODEL_META_DATA_BUILD_OPTION),
   ("INCLUDES", MODEL_EFI_INCLUDE),
   ("LIBRARIES", MODEL_EFI_LIBRARY_INSTANCE),
   ("LIBRARYCLASSES", MODEL_EFI_LIBRARY_CLASS),
   ("PACKAGES", MODEL_META_DATA_PACKAGE),
   ("NMAKE", MODEL_META_DATA_NMAKE),
   ("FIXEDPCD", MODEL_PCD_FIXED_AT_BUILD),
   ("PATCHPCD", MODEL_PCD_PATCHABLE_IN_MODULE),
   ("FEATUREPCD", MODEL_PCD_FEATURE_FLAG),
   ("PCDEX", MODEL_PCD_DYNAMIC_EX),
   ("PCD", MODEL_PCD_DYNAMIC),
   ("SOURCES", MODEL_EFI_SOURCE_FILE),
   ("GUIDS", MODEL_EFI_GUID),
   ("PROTOCOLS", MODEL_EFI_PROTOCOL),
   ("PPIS", MODEL_EFI_PPI),
   ("DEPEX", MODEL_EFI_DEPEX),
   ("BINARIES", MODEL_EFI_BINARY_FILE),
   ("USEREXTENSIONS", MODEL_META_DATA_USER_EXTENSION)]

/-- DecParser.DataType of src/parsers/MetaFileParser2.py. -/
def decDataType : List (String × Int) :=
  [("DEFINES", MODEL_META_DATA_HEADER),
   ("DEFINE", MODEL_META_DATA_DEFINE),
   ("INCLUDES", MODEL_EFI_INCLUDE),
   ("LIBRARYCLASSES", MODEL_EFI_LIBRARY_CLASS),
   ("GUIDS", MODEL_EFI_GUID),
   ("PPIS", MODEL_EFI_PPI),
   ("PROTOCOLS", MODEL_EFI_PROTOCOL),
   ("PCDSFIXEDATBUILD", MODEL_PCD_FIXED_AT_BUILD),
   ("PCDSPATCHABLEINMODULE", MODEL_PCD_PATCHABLE_IN_MODULE),
   ("PCDSFEATUREFLAG", MODEL_PCD_FEATURE_FLAG),
   ("PCDSDYNAMIC", MODEL_PCD_DYNAMIC),
   ("PCDSDYNAMICEX", MODEL_PCD_DYNAMIC_EX),
   ("USEREXTENSIONS", MODEL_META_DATA_USER_EXTENSION)]

/-- Integer lookup in a section table. -/
def tget? (d : List (String × Int)) (k : String) : Option Int :=
  (d.find? (fun p => p.1 = k)).map (·.2)

/-- Integer key membership in a section table. -/
def tmem (d : List (String × Int)) (k : String) : Bool := d.any (fun p => p.1 = k)

/-! ## MetaFileParser._SectionHeaderParser (src/parsers/MetaFileParser2.py,
shared by the I and D dialects) -/

/-- Result of a successful section header parse: section name, section
type, the active scope triples. -/
structure SectionHeader where
  sectionName : String
  sectionType : Int
  scope : List (String × String × String)
deriving DecidableEq, Repr

/-- Loop state of the section header parser: the fields it mutates plus
the arch set used for the final common-arch check. -/
structure SHState where
  sectionName : String
  sectionType : Int
  scope : List (String × String × String)
  archList : List String
deriving DecidableEq, Repr

/-- Set-insert into the arch list (Python set.add). -/
def archAdd (l : List String) (a : String) : List String :=
  if a ∈ l then l else l ++ [a]

/-- Per-item step of MetaFileParser._SectionHeaderParser: checks the
section name against the previous items and the section table, resolves
the scope triple of the item and accumulates it. -/
def sectionHeaderItem (dataType : List (String × Int)) (version : Int) (macros : Dict)
    (st : SHState) (item : String) : Except EdkError SHState :=
  if item = "" then .ok st
  else
    let itemList := GetSplitValueList item '.' 3
    let name0 := pyToUpper (itemList.headD "")
    if st.sectionName ≠ "" ∧ st.sectionName ≠ name0 then
      .error (.format "Different section names in the same section")
    else
      let tyRes : Except EdkError Int :=
        match tget? dataType name0 with
        | some ty =>
            if name0 ∉ SECTIONS_HAVE_ITEM_AFTER_ARCH_SET ∧ itemList.length > 3 then
              .error (.formatUnknown "not a valid section name")
            else .ok ty
        | none =>
            if version ≥ 65541 then .error (.formatUnknown "not a valid section name")
            else .ok MODEL_UNKNOWN
      match tyRes with
      | .error e => .error e
      | .ok sectionType =>
          let S1 := if itemList.length > 1 then pyToUpper (itemList.getD 1 "") else TAB_ARCH_COMMON
          let S1 := ReplaceMacroNR S1 macros
          let S2 :=
            if itemList.length > 2 then
              (if name0 ∈ SECTIONS_HAVE_ITEM_PCD_SET then itemList.getD 2 ""
               else pyToUpper (itemList.getD 2 ""))
            else TAB_COMMON
          let S3 := if itemList.length > 3 then itemList.getD 3 "" else TAB_COMMON
          .ok { sectionName := name0, sectionType := sectionType,
                scope := st.scope ++ [(S1, S2, S3)], archList := archAdd st.archList S1 }

/-- Folding the section header items with early error exit. -/
def sectionHeaderFold (dataType : List (String × Int)) (version : Int) (macros : Dict) :
    List String → SHState → Except EdkError SHState
  | [], st => .ok st
  | item :: items, st =>
      match sectionHeaderItem dataType version macros st item with
      | .error e => .error e
      | .ok st1 => sectionHeaderFold dataType version macros items st1

/-- MetaFileParser._SectionHeaderParser: splits the bracket interior on
commas, processes every item, and rejects a header whose arch set mixes
COMMON with a specific arch.  Only the arch dimension is checked for
COMMON mixing. -/
def sectionHeaderParser (dataType : List (String × Int)) (version : Int) (macros : Dict)
    (currentLine : String) : Except EdkError SectionHeader :=
  let inner := String.mk ((currentLine.toList.drop 1).dropLast)
  let items := GetSplitValueList inner ',' (-1)
  match sectionHeaderFold dataType version macros items
    { sectionName := "", sectionType := MODEL_UNKNOWN, scope := [], archList := [] } with
  | .error e => .error e
  | .ok st =>
      if TAB_ARCH_COMMON ∈ st.archList ∧ st.archList.length > 1 then
        .error (.format "common ARCH must not be used with specific ARCHs")
      else .ok { sectionName := st.sectionName, sectionType := st.sectionType, scope := st.scope }

/-- Spec-side description of the scope triple declared by one section
header item (the arch, module-type and default-store parts with COMMON
defaults, upper-cased except the PCD scope items and the default store). -/
def headerTriple (macros : Dict) (item : String) : String × String × String :=
  let itemList := GetSplitValueList item '.' 3
  let name := pyToUpper (itemList.headD "")
  let S1 := ReplaceMacroNR
    (if itemList.length > 1 then pyToUpper (itemList.getD 1 "") else TAB_ARCH_COMMON) macros
  let S2 :=
    if itemList.length > 2 then
      (if name ∈ SECTIONS_HAVE_ITEM_PCD_SET then itemList.getD 2 ""
       else pyToUpper (itemList.getD 2 ""))
    else TAB_COMMON
  let S3 := if itemList.length > 3 then itemList.getD 3 "" else TAB_COMMON
  (S1, S2, S3)

/-! ## Section header lemmas -/

/-- Membership in the arch set after a set-insert. -/
theorem mem_archAdd (l : List String) (a x : String) :
    x ∈ archAdd l a ↔ x ∈ l ∨ x = a := by
  unfold archAdd
  split_ifs with h
  · constructor
    · exact fun hx => Or.inl hx
    · rintro (hx | rfl) <;> [exact hx; exact h]
  · simp

/-- A successful section header item step either skips an empty item or
appends exactly the declared triple to the scope and its arch to the arch
set. -/
theorem sectionHeaderItem_spec (d : List (String × Int)) (v : Int) (m : Dict)
    (st : SHState) (item : String) (st' : SHState)
    (h : sectionHeaderItem d v m st item = .ok st') :
    (item = "" ∧ st' = st) ∨
    (item ≠ "" ∧ st'.scope = st.scope ++ [headerTriple m item] ∧
      st'.archList = archAdd st.archList (headerTriple m item).1) := by
  by_cases hi : item = ""
  · left
    refine ⟨hi, ?_⟩
    rw [sectionHeaderItem, if_pos hi] at h
    exact (Except.ok.injEq _ _ ▸ h).symm
  · right
    refine ⟨hi, ?_⟩
    rw [sectionHeaderItem, if_neg hi] at h
    simp only [] at h
    split at h
    · exact absurd h (by simp)
    · split at h
      · exact absurd h (by simp)
      · rw [Except.ok.injEq] at h
        subst h
        unfold headerTriple
        exact ⟨rfl, rfl⟩

/-- A successful section header fold appends the declared triples of the
non-empty items to the scope and their arches to the arch set. -/
theorem sectionHeaderFold_spec (d : List (String × Int)) (v : Int) (m : Dict) :
    ∀ (items : List String) (st st' : SHState),
    sectionHeaderFold d v m items st = .ok st' →
    st'.scope = st.scope ++ ((items.filter (fun it => it ≠ "")).map (headerTriple m)) ∧
    st'.archList = ((items.filter (fun it => it ≠ "")).map
      (fun it => (headerTriple m it).1)).foldl archAdd st.archList := by
  intro items
  induction items with
  | nil =>
      intro st st' h
      rw [sectionHeaderFold] at h
      rw [Except.ok.injEq] at h
      subst h
      simp
  | cons item items ih =>
      intro st st' h
      rw [sectionHeaderFold] at h
      split at h
      · exact absurd h (by simp)
      · rename_i st1 hitem
        have hspec := sectionHeaderItem_spec d v m st item st1 hitem
        have hrest := ih st1 st' h
        rcases hspec with ⟨hi, rfl⟩ | ⟨hi, hsc, hal⟩
        · simp [hi, hrest.1, hrest.2]
        · have hfilter : (item :: items).filter (fun it => it ≠ "") =
            item :: items.filter (fun it => it ≠ "") := by simp [hi]
          rw [hfilter]
          constructor
          · rw [hrest.1, hsc]
            simp
          · rw [hrest.2, hal]
            simp

/-- Membership after folding set-inserts over a list. -/
theorem mem_foldl_archAdd : ∀ (l : List String) (init : List String) (x : String),
    x ∈ l.foldl archAdd init ↔ x ∈ init ∨ x ∈ l := by
  intro l
  induction l with
  | nil => intro init x; simp
  | cons a as ih =>
      intro init x
      rw [List.foldl_cons, ih (archAdd init a) x, mem_archAdd]
      constructor
      · rintro ((hx | rfl) | hx)
        · exact Or.inl hx
        · exact Or.inr (by simp)
        · exact Or.inr (by simp [hx])
      · rintro (hx | hx)
        · exact Or.inl (Or.inl hx)
        · rcases List.mem_cons.mp hx with rfl | hx2
          · exact Or.inl (Or.inr rfl)
          · exact Or.inr hx2

/-- A list of length at most one has equal members. -/
theorem length_le_one_mem_eq {α : Type} (l : List α) (h : l.length ≤ 1)
    {x y : α} (hx : x ∈ l) (hy : y ∈ l) : x = y := by
  rcases l with _ | ⟨a, rest⟩
  · simp at hx
  · rcases rest with _ | ⟨b, rest2⟩
    · simp at hx hy
      rw [hx, hy]
    · simp at h

deriving instance DecidableEq for Except

/-! ## Claim C7 -/

/-- Claim C7 counterexample: a section header whose two triples mix PEIM
with COMMON in the module-type dimension parses successfully (no
FORMAT_INVALID), because the shared section header parser only checks the
arch dimension for COMMON mixing. -/
theorem C7_counterexample :
    sectionHeaderParser dscDataType 65541 []
      "[LibraryClasses.IA32.PEIM,LibraryClasses.IA32.COMMON]" =
    .ok { sectionName := "LIBRARYCLASSES", sectionType := MODEL_EFI_LIBRARY_CLASS,
          scope := [("IA32", "PEIM", "COMMON"), ("IA32", "COMMON", "COMMON")] } := by
  decide

/-- Claim C7 amended: every non-empty comma-separated item of a section
header contributes exactly its declared scope triple, in order; the
COMMON-mixing FORMAT_INVALID check applies to the arch dimension only, so
a successful parse has either no COMMON arch or only COMMON arches, while
the module-type and default-store dimensions are not checked. -/
theorem C7_theorem :
    (∀ (d : List (String × Int)) (v : Int) (m : Dict) (line : String) (res : SectionHeader),
       sectionHeaderParser d v m line = .ok res →
       res.scope = ((GetSplitValueList (String.mk ((line.toList.drop 1).dropLast)) ',' (-1)).filter
         (fun it => it ≠ "")).map (headerTriple m)) ∧
    (∀ (d : List (String × Int)) (v : Int) (m : Dict) (line : String) (res : SectionHeader),
       sectionHeaderParser d v m line = .ok res →
       (∃ t ∈ res.scope, t.1 = TAB_ARCH_COMMON) →
       ∀ t ∈ res.scope, t.1 = TAB_ARCH_COMMON) := by
  have hbase : ∀ (d : List (String × Int)) (v : Int) (m : Dict) (line : String)
      (res : SectionHeader), sectionHeaderParser d v m line = .ok res →
      ∃ st : SHState, res.scope = st.scope ∧
        st.scope = ((GetSplitValueList (String.mk ((line.toList.drop 1).dropLast)) ',' (-1)).filter
          (fun it => it ≠ "")).map (headerTriple m) ∧
        st.archList = (((GetSplitValueList (String.mk ((line.toList.drop 1).dropLast)) ','
          (-1)).filter (fun it => it ≠ "")).map (fun it => (headerTriple m it).1)).foldl
            archAdd [] ∧
        ¬(TAB_ARCH_COMMON ∈ st.archList ∧ st.archList.length > 1) := by
    intro d v m line res h
    rw [sectionHeaderParser] at h
    split at h
    · exact absurd h (by simp)
    · rename_i st hfold
      split at h
      · exact absurd h (by simp)
      · rename_i hmix
        rw [Except.ok.injEq] at h
        have hspec := sectionHeaderFold_spec d v m _ _ _ hfold
        refine ⟨st, ?_, ?_, ?_, hmix⟩
        · rw [← h]
        · simpa using hspec.1
        · simpa using hspec.2
  constructor
  · intro d v m line res h
    obtain ⟨st, h1, h2, _, _⟩ := hbase d v m line res h
    rw [h1, h2]
  · intro d v m line res h hex t ht
    obtain ⟨st, h1, h2, h3, hmix⟩ := hbase d v m line res h
    obtain ⟨t0, ht0, ht0c⟩ := hex
    rw [h1] at ht0 ht
    have harchs : ∀ u : String × String × String, u ∈ st.scope → u.1 ∈ st.archList := by
      intro u hu
      rw [h2] at hu
      rcases List.mem_map.mp hu with ⟨it, hit, hueq⟩
      rw [h3, mem_foldl_archAdd]
      right
      rw [← hueq]
      exact List.mem_map_of_mem _ hit
    have hmemc : TAB_ARCH_COMMON ∈ st.archList := ht0c ▸ harchs t0 ht0
    have hle : st.archList.length ≤ 1 := by
      by_contra hgt
      exact hmix ⟨hmemc, by omega⟩
    exact length_le_one_mem_eq st.archList hle (harchs t ht) hmemc

/-- Concrete section header used by the C7 witness. -/
def shC7 : SectionHeader :=
  { sectionName := "SKUIDS", sectionType := MODEL_EFI_SKU_ID,
    scope := [("IA32", "COMMON", "COMMON"), ("IA32", "PEIM", "COMMON")] }

/-- Concrete all-COMMON section header used by the C7 witness. -/
def shC7d : SectionHeader :=
  { sectionName := "DEFINES", sectionType := MODEL_META_DATA_HEADER,
    scope := [("COMMON", "COMMON", "COMMON")] }

/-- Claim C7 witness: the amended claim instantiated at a concrete
two-triple header (triples as declared) and at a concrete all-COMMON
header (COMMON arch implies every arch is COMMON). -/
theorem C7_witness :
    (sectionHeaderParser dscDataType 65541 [] "[SkuIds.IA32,SkuIds.IA32.PEIM]" = .ok shC7 ∧
     shC7.scope = ((GetSplitValueList "SkuIds.IA32,SkuIds.IA32.PEIM" ',' (-1)).filter
       (fun it => it ≠ "")).map (headerTriple [])) ∧
    (sectionHeaderParser infDataType 0 [] "[Defines]" = .ok shC7d ∧
     ∀ t ∈ shC7d.scope, t.1 = TAB_ARCH_COMMON) := by
  refine ⟨⟨by decide, ?_⟩, ⟨by decide, ?_⟩⟩
  · have := C7_theorem.1 dscDataType 65541 [] "[SkuIds.IA32,SkuIds.IA32.PEIM]" shC7 (by decide)
    simpa using this
  · exact C7_theorem.2 infDataType 0 [] "[Defines]" shC7d (by decide)
      ⟨("COMMON", "COMMON", "COMMON"), by decide, rfl⟩

/-! ## DscParser post-processing (src/parsers/MetaFileParser2.py lines
1374-1525 and the __Process helpers).  The external expression evaluator,
the file system behind bang-include and the BuildOptionPcd command line are
oracle parameters. -/

/-- Section macro table _SectionsMacroDict: a defaultdict keyed by the pair
of section type and scope-triple tuple. -/
abbrev SMDict := List ((Int × List (String × String × String)) × Dict)

/-- Item assignment into the section macro table
(self._SectionsMacroDict[SectionDictKey][Name] = Value with defaultdict
semantics). -/
def smdInsert (smd : SMDict) (key : Int × List (String × String × String))
    (name value : String) : SMDict :=
  if smd.any (fun p => p.1 = key) then
    smd.map (fun p => if p.1 = key then (p.1, dinsert p.2 name value) else p)
  else smd ++ [(key, dinsert [] name value)]

/-- MetaFileParser._GetApplicableSectionMacro: merges the section macro
entries applicable to the active section and scope, from the widest
(common-common) to the narrowest (specific-specific) layer. -/
def getApplicableSectionMacro (smd : SMDict) (activeSectionType : Int)
    (activeScope : List (String × String × String)) : Dict :=
  let step := fun (acc : Dict × Dict × Dict)
      (entry : (Int × List (String × String × String)) × Dict) =>
    let sectionType := entry.1.1
    let scopeKey := entry.1.2
    let macros := entry.2
    if sectionType ≠ activeSectionType then acc
    else
      let comcom := if (TAB_COMMON, TAB_COMMON, TAB_COMMON) ∈ scopeKey then
          dupdate acc.1 macros else acc.1
      let comspe := if activeScope.all (fun t =>
          t ∈ scopeKey ∨ (t.1, TAB_COMMON, TAB_COMMON) ∈ scopeKey ∨
          (TAB_COMMON, t.2.1, TAB_COMMON) ∈ scopeKey) then
          dupdate acc.2.1 macros else acc.2.1
      let spespe := if activeScope.all (fun t => t ∈ scopeKey) then
          dupdate acc.2.2 macros else acc.2.2
      (comcom, comspe, spespe)
  let merged := smd.foldl step ([], [], [])
  dupdate (dupdate merged.1 merged.2.1) merged.2.2

/-- Outcome of the external expression evaluator on a directive argument
(ValueExpression(expr, macros)() truthiness): a value, a SymbolNotFound
exception (downgraded to False), a WrnExpression carrying a result, or any
other evaluation exception (fatal in the post-processor). -/
inductive EvalOutcome where
  | ok (b : Bool)
  | symNotFound
  | warn (b : Bool)
  | raise
deriving DecidableEq, Repr

/-- Outcome of expanding a bang-include: a fatal path or parse failure, or
the record list obtained from the included file's table. -/
inductive IncludeOutcome where
  | fatal
  | records (recs : List DscLine)
deriving DecidableEq, Repr

/-- Oracle and ambient-global configuration of the post-processor. -/
structure PPConfig where
  ranStr : String
  exprEval : String → Dict → EvalOutcome
  pcdEval : String → Dict → Option String
  includeEval : String → DscLine → IncludeOutcome
  gGlobalDefines : Dict
  gCommandLineDefines : Dict
  buildOptionPcdMacros : Dict

/-- Mutable parser state used by the post-processor.  Fields mirror the
DscParser attributes; gEdkGlobal, gPlatformDefines and gPlatformPcds are
the process-wide dictionaries the post-processor writes. -/
structure PPState where
  table : PlatformTable
  directiveStack : List Int
  directiveEvalStack : List Bool
  fileLocalMacros : Dict
  sectionsMacroDict : SMDict
  symbols : Dict
  gEdkGlobal : Dict
  gPlatformDefines : Dict
  gPlatformPcds : Dict
  idMapping : List (Int × Int)
  sectionType : Int
  sectionName : String
  subsectionType : Int
  subsectionName : String
  inSubsection : Bool
  enabled : Bool
  scope : List (String × String × String)
  lineIndex : Int
  fromItem : Int
  currentLine : String
  lastItem : Int
deriving DecidableEq, Repr

/-- State of a freshly constructed DscParser before the first
post-processing run (the _IdMapping dictionary starts as the singleton
mapping -1 to -1). -/
def ppInitState : PPState :=
  { table := PlatformTable.init, directiveStack := [], directiveEvalStack := [],
    fileLocalMacros := [], sectionsMacroDict := [], symbols := [],
    gEdkGlobal := [], gPlatformDefines := [], gPlatformPcds := [],
    idMapping := [(-1, -1)], sectionType := MODEL_UNKNOWN, sectionName := "",
    subsectionType := MODEL_UNKNOWN, subsectionName := "", inSubsection := false,
    enabled := true, scope := [], lineIndex := 0, fromItem := -1,
    currentLine := "", lastItem := -1 }

/-- Lookup in the id mapping with Python dict.get default -1. -/
def imget (m : List (Int × Int)) (k : Int) : Int :=
  ((m.find? (fun p => p.1 = k)).map (·.2)).getD (-1)

/-- Key membership in the id mapping. -/
def immem (m : List (Int × Int)) (k : Int) : Bool := m.any (fun p => p.1 = k)

/-- Item assignment into the id mapping. -/
def iminsert (m : List (Int × Int)) (k v : Int) : List (Int × Int) :=
  if m.any (fun p => p.1 = k) then m.map (fun p => if p.1 = k then (k, v) else p)
  else m ++ [(k, v)]

/-- DscParser._Macros: file-local macros, applicable section macros, the
EDK globals, the platform defines, the command line defines, the PCD
symbols (except for define items) and the build-option PCD overrides, each
layer overriding the previous one. -/
def dscMacros (cfg : PPConfig) (st : PPState) (itemType : Int) : Dict :=
  let m := dupdate [] st.fileLocalMacros
  let m := dupdate m (getApplicableSectionMacro st.sectionsMacroDict st.sectionType st.scope)
  let m := dupdate m st.gEdkGlobal
  let m := dupdate m st.gPlatformDefines
  let m := dupdate m cfg.gCommandLineDefines
  let m := if itemType ≠ MODEL_META_DATA_DEFINE ∧ itemType ≠ MODEL_META_DATA_GLOBAL_DEFINE then
      dupdate m st.symbols
    else m
  dupdate m cfg.buildOptionPcdMacros

/-- The enable predicate of the post-processor: the directive evaluation
stack is empty or contains no false entry (line 1501 of the source). -/
def stackOk (evalStack : List Bool) : Bool :=
  evalStack.isEmpty || !(evalStack.contains false)

/-- Python str.join over a field list. -/
def pyJoin (sep : String) : List String → String
  | [] => ""
  | x :: xs => xs.foldl (fun acc y => acc ++ sep ++ y) x

/-- The directive record models handled by __ProcessDirective. -/
def directiveModels : List Int :=
  [ MODEL_META_DATA_INCLUDE, MODEL_META_DATA_CONDITIONAL_STATEMENT_IF,
   MODEL_META_DATA_CONDITIONAL_STATEMENT_ELSE, MODEL_META_DATA_CONDITIONAL_STATEMENT_IFDEF,
   MODEL_META_DATA_CONDITIONAL_STATEMENT_IFNDEF, MODEL_META_DATA_CONDITIONAL_STATEMENT_ENDIF,
   MODEL_META_DATA_CONDITIONAL_STATEMENT_ELSEIF]

/-- The PCD record models handled by __ProcessPcd. -/
def pcdModels : List Int :=
  [ MODEL_PCD_FIXED_AT_BUILD, MODEL_PCD_PATCHABLE_IN_MODULE, MODEL_PCD_FEATURE_FLAG,
   MODEL_PCD_DYNAMIC_DEFAULT, MODEL_PCD_DYNAMIC_HII, MODEL_PCD_DYNAMIC_VPD,
   MODEL_PCD_DYNAMIC_EX_DEFAULT, MODEL_PCD_DYNAMIC_EX_HII, MODEL_PCD_DYNAMIC_EX_VPD]

/-- The bang-endif unwinding of __ProcessDirective: pops both stacks until
an if-kind entry is popped or the directive stack empties (the stacks are
modelled with the top at the head). -/
def endifPop : List Int → List Bool → Except EdkError (List Int × List Bool)
  | [], evalStack => .ok ([], evalStack)
  | _ :: _, [] => .error (.pyError "IndexError")
  | d :: ds, _ :: es =>
      if d = MODEL_META_DATA_CONDITIONAL_STATEMENT_IF ∨
         d = MODEL_META_DATA_CONDITIONAL_STATEMENT_IFDEF ∨
         d = MODEL_META_DATA_CONDITIONAL_STATEMENT_IFNDEF then .ok (ds, es)
      else endifPop ds es

/-- DscParser.__ProcessDirective.  Conditional directives maintain the two
stacks; bang-include expands through the include oracle when enabled and
is consumed (ValueList becomes None) exactly when the expansion produced
records. -/
def ppDirectiveEval (cfg : PPConfig) (st : PPState) (itemType : Int) (vl : List String) :
    Except EdkError (Option Bool) :=
  if itemType = MODEL_META_DATA_CONDITIONAL_STATEMENT_IF ∨
     itemType = MODEL_META_DATA_CONDITIONAL_STATEMENT_ELSEIF then
    let macros := dupdate (dscMacros cfg st itemType) cfg.gGlobalDefines
    match cfg.exprEval (vl.getD 1 "") macros with
    | .ok b => .ok (some b)
    | .symNotFound => .ok (some false)
    | .warn b => .ok (some b)
    | .raise => .error (.format "Invalid expression")
  else .ok none

def ppDirective (cfg : PPConfig) (st : PPState) (itemType : Int) (vl : List String)
    (lastRec : DscLine) : Except EdkError (PPState × Option (List String) × List DscLine) :=
  match ppDirectiveEval cfg st itemType vl with
  | .error e => .error e
  | .ok resultOpt =>
    if itemType = MODEL_META_DATA_CONDITIONAL_STATEMENT_IF ∨
       itemType = MODEL_META_DATA_CONDITIONAL_STATEMENT_IFDEF ∨
       itemType = MODEL_META_DATA_CONDITIONAL_STATEMENT_IFNDEF then
      let result :=
        if itemType = MODEL_META_DATA_CONDITIONAL_STATEMENT_IF then resultOpt.getD false
        else
          let mac0 := vl.getD 1 ""
          let mac := if pyStartsWith mac0 "$(" && pyEndsWith mac0 ")" then
              String.mk ((mac0.toList.drop 2).dropLast) else mac0
          let r := dmem (dscMacros cfg st itemType) mac
          if itemType = MODEL_META_DATA_CONDITIONAL_STATEMENT_IFNDEF then !r else r
      .ok ({ st with
              directiveStack := itemType :: st.directiveStack,
              directiveEvalStack := result :: st.directiveEvalStack }, some vl, [])
    else if itemType = MODEL_META_DATA_CONDITIONAL_STATEMENT_ELSEIF then
      match st.directiveEvalStack with
      | [] => .error (.pyError "IndexError")
      | b :: rest =>
          .ok ({ st with
                  directiveStack := itemType :: st.directiveStack,
                  directiveEvalStack := (resultOpt.getD false) :: (!b) :: rest }, some vl, [])
    else if itemType = MODEL_META_DATA_CONDITIONAL_STATEMENT_ELSE then
      match st.directiveEvalStack with
      | [] => .error (.pyError "IndexError")
      | b :: rest =>
          .ok ({ st with
                  directiveStack := itemType :: st.directiveStack,
                  directiveEvalStack := true :: (!b) :: rest }, some vl, [])
    else if itemType = MODEL_META_DATA_CONDITIONAL_STATEMENT_ENDIF then
      match endifPop st.directiveStack st.directiveEvalStack with
      | .error e => .error e
      | .ok (ds, es) =>
          .ok ({ st with
                  directiveStack := ds, directiveEvalStack := es }, some vl, [])
    else if itemType = MODEL_META_DATA_INCLUDE then
      match dget? cfg.gGlobalDefines "WORKSPACE" with
      | none => .error (.pyError "KeyError WORKSPACE")
      | some w =>
          let includeMacros := dupdate (dinsert [] "WORKSPACE" w) (dscMacros cfg st itemType)
          match ReplaceMacroE macroFuel (vl.getD 1 "") includeMacros true, st.enabled with
          | .error e, _ => .error e
          | .ok path, true =>
              (match cfg.includeEval path lastRec with
               | .fatal => .error (.fileRead "include file error")
               | .records recs =>
                   if recs.isEmpty then .ok (st, some vl, [])
                   else .ok (st, none, recs))
          | .ok _, false => .ok (st, some vl, [])
    else .ok (st, some vl, [])

/-- DscParser.__ProcessDefine: skipped when disabled; records the macro in
the file-local table or the section macro table (or the EDK globals for
EDK_GLOBAL), except inside a component sub-section. -/
def ppProcessDefine (cfg : PPConfig) (st : PPState) (itemType : Int) (vl : List String) :
    PPState × Option (List String) :=
  if !st.enabled then (st, some vl)
  else
    let ty := vl.getD 0 ""
    let name := vl.getD 1 ""
    let value := ReplaceMacroNR (vl.getD 2 "") (dscMacros cfg st itemType)
    if st.inSubsection then (st, some [ty, name, value])
    else
      let st1 :=
        if itemType = MODEL_META_DATA_DEFINE then
          (if st.sectionType = MODEL_META_DATA_HEADER then
            { st with fileLocalMacros := dinsert st.fileLocalMacros name value }
          else
            { st with
                sectionsMacroDict :=
                  smdInsert st.sectionsMacroDict (st.sectionType, st.scope) name value })
        else if itemType = MODEL_META_DATA_GLOBAL_DEFINE then
          { st with gEdkGlobal := dinsert st.gEdkGlobal name value }
        else st
      let st2 :=
        if itemType = MODEL_META_DATA_HEADER ∧ st1.sectionType = MODEL_META_DATA_HEADER then
          { st1 with fileLocalMacros := dinsert st1.fileLocalMacros name value }
        else st1
      (st2, some [ty, name, value])

/-- Raising macro replacement over a whole value list (the SkuId and
DefaultStores processors). -/
def replaceAllE (macros : Dict) : List String → Except EdkError (List String)
  | [] => .ok []
  | x :: xs =>
      match ReplaceMacroE macroFuel x macros true with
      | .error e => .error e
      | .ok y =>
          match replaceAllE macros xs with
          | .error e => .error e
          | .ok ys => .ok (y :: ys)

/-- DscParser.__ProcessPcd: non-feature, non-fixed PCDs only get a raising
macro replacement of the value; FEATURE_FLAG and FIXED_AT_BUILD values are
analysed, optionally evaluated through the expression oracle, normalised
for booleans, recorded in gPlatformPcds and Symbols when the directive
context is enabled, and re-joined. -/
def ppProcessPcd (cfg : PPConfig) (st : PPState) (itemType : Int) (vl : List String) :
    Except EdkError (PPState × Option (List String)) :=
  if itemType ≠ MODEL_PCD_FEATURE_FLAG ∧ itemType ≠ MODEL_PCD_FIXED_AT_BUILD then
    match ReplaceMacroE macroFuel (vl.getD 2 "") (dscMacros cfg st itemType) true with
    | .error e => .error e
    | .ok v2 => .ok (st, some [vl.getD 0 "", vl.getD 1 "", v2])
  else
    let res := AnalyzeDscPcd cfg.ranStr (vl.getD 2 "") itemType ""
    let valList := res.1
    let valid := res.2.1
    let index := res.2.2
    if !valid then
      if (itemType = MODEL_PCD_DYNAMIC_DEFAULT ∨ itemType = MODEL_PCD_DYNAMIC_EX_DEFAULT ∨
          itemType = MODEL_PCD_FIXED_AT_BUILD ∨ itemType = MODEL_PCD_PATCHABLE_IN_MODULE) ∧
         valList.getD 1 "" ≠ TAB_VOID ∧ ¬StructPatternMatch (valList.getD 1 "") ∧
         valList.getD 2 "" ≠ "" then
        .error (.format "The datum type info should be VOID* or a valid struct name")
      else .error (.format "Pcd format incorrect")
    else
      let pcdValue := valList.getD index ""
      let valList :=
        if pcdValue ≠ "" ∧ ¬pyContains (vl.getD 0 "") "." then
          match cfg.pcdEval pcdValue (dscMacros cfg st itemType) with
          | some s => valList.set index s
          | none => valList
        else valList
      let valList := if valList.getD index "" = "True" then valList.set index "1" else valList
      let valList := if valList.getD index "" = "False" then valList.set index "0" else valList
      let st1 :=
        if stackOk st.directiveEvalStack then
          let key := (vl.getD 0 "") ++ "." ++ (vl.getD 1 "")
          { st with
              gPlatformPcds := dinsert st.gPlatformPcds key pcdValue,
              symbols := dinsert st.symbols key pcdValue }
        else st
      .ok (st1, some [vl.getD 0 "", vl.getD 1 "", pyJoin "|" valList])

/-- Dispatch of the Processer table of DscParser._PostProcess over the
record model.  A model without a processor is a Python KeyError. -/
def ppProcess (cfg : PPConfig) (st : PPState) (itemType : Int) (vl : List String)
    (lastRec : DscLine) : Except EdkError (PPState × Option (List String) × List DscLine) :=
  if itemType = MODEL_META_DATA_SECTION_HEADER then
    let name := vl.getD 0 ""
    .ok ({ st with
            sectionName := name,
            sectionType := (tget? dscDataType name).getD MODEL_UNKNOWN }, some vl, [])
  else if itemType = MODEL_META_DATA_SUBSECTION_HEADER then
    let name := vl.getD 0 ""
    .ok ({ st with
            subsectionName := name,
            subsectionType := (tget? dscDataType name).getD MODEL_UNKNOWN }, some vl, [])
  else if itemType = MODEL_META_DATA_HEADER ∨ itemType = MODEL_META_DATA_DEFINE ∨
      itemType = MODEL_META_DATA_GLOBAL_DEFINE then
    let r := ppProcessDefine cfg st itemType vl
    .ok (r.1, r.2, [])
  else if itemType ∈ directiveModels then
    ppDirective cfg st itemType vl lastRec
  else if itemType = MODEL_META_DATA_PACKAGE then
    .ok (st, some [ReplaceMacroNR (vl.getD 0 "") (dscMacros cfg st itemType),
                   vl.getD 1 "", vl.getD 2 ""], [])
  else if itemType = MODEL_EFI_SKU_ID ∨ itemType = MODEL_EFI_DEFAULT_STORES then
    match replaceAllE (dscMacros cfg st itemType) vl with
    | .error e => .error e
    | .ok vl1 => .ok (st, some vl1, [])
  else if itemType = MODEL_EFI_LIBRARY_INSTANCE then
    .ok (st, some (vl.map (fun v => ReplaceMacroNR v (dscMacros cfg st itemType))), [])
  else if itemType = MODEL_EFI_LIBRARY_CLASS then
    match ReplaceMacroE macroFuel (vl.getD 1 "") (dscMacros cfg st itemType) true with
    | .error e => .error e
    | .ok v1 => .ok (st, some [vl.getD 0 "", v1, vl.getD 2 ""], [])
  else if itemType ∈ pcdModels then
    match ppProcessPcd cfg st itemType vl with
    | .error e => .error e
    | .ok (st1, vl1) => .ok (st1, vl1, [])
  else if itemType = MODEL_META_DATA_COMPONENT then
    .ok (st, some [ReplaceMacroNR (vl.getD 0 "") (dscMacros cfg st itemType),
                   vl.getD 1 "", vl.getD 2 ""], [])
  else if itemType = MODEL_META_DATA_BUILD_OPTION then
    .ok (st, some (vl.map (fun v => ReplaceMacroNR v (dscMacros cfg st itemType))), [])
  else if itemType = MODEL_UNKNOWN then
    .ok (st, some [st.currentLine, vl.getD 1 "", vl.getD 2 ""], [])
  else if itemType = MODEL_META_DATA_USER_EXTENSION then
    .ok (st, some [st.currentLine, vl.getD 1 "", vl.getD 2 ""], [])
  else if itemType = MODEL_META_DATA_CONDITIONAL_STATEMENT_ERROR then
    if !st.enabled then .ok (st, some vl, [])
    else .error (.errorStatement (vl.getD 1 ""))
  else .error (.pyError "KeyError Processer")

/-- The include merge loop of _PostProcess (lines 1450-1459): consecutive
records with the same start and end lines as the include record are
consumed, merging their scope triples; returns the merged scope, the last
consumed record and the remaining content. -/
def includeMerge (ls le : Int) (lastRec : DscLine)
    (scope : List (String × String × String)) :
    List DscLine → List (String × String × String) × DscLine × List DscLine
  | [] => (scope, lastRec, [])
  | r :: rs =>
      if r.StartLine = ls ∧ r.EndLine = le then
        let scope1 :=
          if (r.Scope1, r.Scope2, r.Scope3) ∈ scope then scope
          else scope ++ [(r.Scope1, r.Scope2, r.Scope3)]
        includeMerge ls le r scope1 rs
      else (scope, lastRec, r :: rs)

/-- One full iteration of the _PostProcess content loop for the record at
the front: context bookkeeping (lines 1426-1467), the record processor and
the store step (lines 1497-1521).  Returns the updated state and the
content remaining for the next iteration (include expansions are spliced
in front of it). -/
def ppStep (cfg : PPConfig) (st : PPState) (item : DscLine) (rest : List DscLine) :
    Except EdkError (PPState × List DscLine) :=
  let itemType := item.Model
  let merged :=
    if itemType = MODEL_META_DATA_INCLUDE then
      includeMerge item.StartLine item.EndLine item
        [(item.Scope1, item.Scope2, item.Scope3)] rest
    else ([(item.Scope1, item.Scope2, item.Scope3)], item, rest)
  let scope := merged.1
  let lastRec := merged.2.1
  let rest1 := merged.2.2
  let st := { st with
    fromItem := item.FromItem,
    scope := scope,
    lineIndex := item.StartLine - 1,
    inSubsection := item.BelongsToItem > 0 && immem st.idMapping item.BelongsToItem }
  let vl := [item.Value1, item.Value2, item.Value3]
  match ppProcess cfg st itemType vl lastRec with
  | .error e => .error e
  | .ok (st1, vlOpt, splice) =>
      match vlOpt with
      | none => .ok (st1, splice ++ rest1)
      | some vl1 =>
          let newOwner := imget st1.idMapping item.BelongsToItem
          let enabled := stackOk st1.directiveEvalStack
          let ins := st1.table.Insert itemType (vl1.getD 0 "") (vl1.getD 1 "")
            (vl1.getD 2 "") item.Scope1 item.Scope2 item.Scope3 newOwner st1.fromItem
            (st1.lineIndex + 1) (-1) (st1.lineIndex + 1) (-1) "" "" ""
            (if enabled then 1 else 0)
          .ok ({ st1 with
                  table := ins.1,
                  enabled := enabled,
                  idMapping := iminsert st1.idMapping item.ID ins.2,
                  lastItem := ins.2 }, rest1)

/-- The _PostProcess content loop, fuel-bounded because include expansion
splices new records into the remaining content. -/
def ppLoop (cfg : PPConfig) : Nat → PPState → List DscLine → Except EdkError PPState
  | 0, _, _ => .error .outOfFuel
  | _ + 1, st, [] => .ok st
  | fuel + 1, st, item :: rest =>
      match ppStep cfg st item rest with
      | .error e => .error e
      | .ok (st1, rest1) => ppLoop cfg fuel st1 rest1

/-- DscParser._PostProcess.  Resets the per-run state (fresh temporary
table, directive stacks, file-local and section macros, platform defines),
walks the live raw records, and finally publishes the file-local macros
into gPlatformDefines.  The _Symbols and _IdMapping dictionaries are NOT
reset and persist from the previous run.  __RetrievePcdValue only collects
diagnostic data for error messages from the source text and is modelled as
a no-op. -/
def postProcess (cfg : PPConfig) (fuel : Nat) (persist : PPState)
    (rawTable : PlatformTable) : Except EdkError PPState :=
  let st := { persist with
    table := PlatformTable.init,
    directiveStack := [],
    directiveEvalStack := [],
    fileLocalMacros := [],
    sectionsMacroDict := [],
    gPlatformDefines := [],
    inSubsection := false }
  match ppLoop cfg fuel st rawTable.GetAll with
  | .error e => .error e
  | .ok st1 => .ok { st1 with gPlatformDefines := dupdate st1.gPlatformDefines st1.fileLocalMacros }

/-- The conditional directive models (the CONDITIONAL_* kinds). -/
def condModels : List Int :=
  [ MODEL_META_DATA_CONDITIONAL_STATEMENT_IF, MODEL_META_DATA_CONDITIONAL_STATEMENT_ELSE,
   MODEL_META_DATA_CONDITIONAL_STATEMENT_IFDEF, MODEL_META_DATA_CONDITIONAL_STATEMENT_IFNDEF,
   MODEL_META_DATA_CONDITIONAL_STATEMENT_ENDIF, MODEL_META_DATA_CONDITIONAL_STATEMENT_ELSEIF]

/-- A successful __ProcessDirective leaves the resolved table unchanged. -/
theorem ppDirective_table (cfg : PPConfig) (st : PPState) (ty : Int) (vl : List String)
    (rec : DscLine) (st' : PPState) (o : Option (List String)) (sp : List DscLine)
    (h : ppDirective cfg st ty vl rec = .ok (st', o, sp)) : st'.table = st.table := by
  unfold ppDirective at h
  repeat' split at h
  all_goals (try simp_all)
  all_goals (try (rw [← h.1]))
  rename_i x1 r x2 w hq1 h4 h3 h2 h1 h0 hq
  rcases hR : ReplaceMacroE macroFuel (vl[1]?.getD "") (dupdate (dinsert [] "WORKSPACE" w) (dscMacros cfg st MODEL_META_DATA_INCLUDE)) true with e | path
  · rw [hR] at h; simp at h
  · rw [hR] at h
    rcases hEn : st.enabled with _ | _
    · rw [hEn] at h; simp at h; rw [← h.1]
    · rw [hEn] at h
      simp only [] at h
      rcases hI : cfg.includeEval path rec with _ | recs
      · rw [hI] at h; simp at h
      · rw [hI] at h
        by_cases hr : recs = []
        · simp [hr] at h; rw [← h.1]
        · simp [hr] at h; rw [← h.1]

/-- A successful conditional-directive processing keeps the value list and
splices nothing. -/
theorem ppDirective_cond (cfg : PPConfig) (st : PPState) (ty : Int) (vl : List String)
    (rec : DscLine) (st' : PPState) (o : Option (List String)) (sp : List DscLine)
    (hty : ty ≠ MODEL_META_DATA_INCLUDE)
    (h : ppDirective cfg st ty vl rec = .ok (st', o, sp)) : o = some vl ∧ sp = [] := by
  unfold ppDirective at h
  repeat' split at h
  all_goals simp_all

/-- A successful __ProcessPcd leaves the resolved table unchanged. -/
theorem ppProcessPcd_table (cfg : PPConfig) (st : PPState) (ty : Int) (vl : List String)
    (st' : PPState) (o : Option (List String))
    (h : ppProcessPcd cfg st ty vl = .ok (st', o)) : st'.table = st.table := by
  unfold ppProcessPcd at h
  dsimp only [] at h
  repeat' split at h
  all_goals (try (exact Except.noConfusion h))
  all_goals (simp only [Except.ok.injEq, Prod.mk.injEq] at h)
  all_goals (rw [← h.1])

/-- __ProcessDefine never touches the resolved table. -/
theorem ppProcessDefine_table (cfg : PPConfig) (st : PPState) (ty : Int)
    (vl : List String) : (ppProcessDefine cfg st ty vl).1.table = st.table := by
  unfold ppProcessDefine
  dsimp only []
  repeat' split
  all_goals rfl

/-- Dispatch reduction: a directive-model record is handled by
__ProcessDirective. -/
theorem ppProcess_directive (cfg : PPConfig) (st : PPState) (ty : Int) (vl : List String)
    (rec : DscLine) (hm : ty ∈ directiveModels) :
    ppProcess cfg st ty vl rec = ppDirective cfg st ty vl rec := by
  simp only [directiveModels, List.mem_cons, List.not_mem_nil, or_false] at hm
  unfold ppProcess
  rcases hm with rfl | rfl | rfl | rfl | rfl | rfl | rfl <;>
    rw [if_neg (by decide), if_neg (by decide), if_neg (by decide), if_pos (by decide)]

/-- No record processor of _PostProcess touches the resolved table. -/
theorem ppProcess_table (cfg : PPConfig) (st : PPState) (ty : Int) (vl : List String)
    (rec : DscLine) (st' : PPState) (o : Option (List String)) (sp : List DscLine)
    (h : ppProcess cfg st ty vl rec = .ok (st', o, sp)) : st'.table = st.table := by
  unfold ppProcess at h
  by_cases c1 : ty = MODEL_META_DATA_SECTION_HEADER
  · rw [if_pos c1] at h
    simp only [Except.ok.injEq, Prod.mk.injEq] at h
    rw [← h.1]
  rw [if_neg c1] at h
  by_cases c2 : ty = MODEL_META_DATA_SUBSECTION_HEADER
  · rw [if_pos c2] at h
    simp only [Except.ok.injEq, Prod.mk.injEq] at h
    rw [← h.1]
  rw [if_neg c2] at h
  by_cases c3 : ty = MODEL_META_DATA_HEADER ∨ ty = MODEL_META_DATA_DEFINE ∨
      ty = MODEL_META_DATA_GLOBAL_DEFINE
  · rw [if_pos c3] at h
    simp only [Except.ok.injEq, Prod.mk.injEq] at h
    rw [← h.1]
    exact ppProcessDefine_table cfg st ty vl
  rw [if_neg c3] at h
  by_cases c4 : ty ∈ directiveModels
  · rw [if_pos c4] at h
    exact ppDirective_table cfg st ty vl rec st' o sp h
  rw [if_neg c4] at h
  by_cases c5 : ty = MODEL_META_DATA_PACKAGE
  · rw [if_pos c5] at h
    simp only [Except.ok.injEq, Prod.mk.injEq] at h
    rw [← h.1]
  rw [if_neg c5] at h
  by_cases c6 : ty = MODEL_EFI_SKU_ID ∨ ty = MODEL_EFI_DEFAULT_STORES
  · rw [if_pos c6] at h
    rcases hM : replaceAllE (dscMacros cfg st ty) vl with e | vl1 <;> rw [hM] at h
    · exact Except.noConfusion h
    · simp only [Except.ok.injEq, Prod.mk.injEq] at h
      rw [← h.1]
  rw [if_neg c6] at h
  by_cases c7 : ty = MODEL_EFI_LIBRARY_INSTANCE
  · rw [if_pos c7] at h
    simp only [Except.ok.injEq, Prod.mk.injEq] at h
    rw [← h.1]
  rw [if_neg c7] at h
  by_cases c8 : ty = MODEL_EFI_LIBRARY_CLASS
  · rw [if_pos c8] at h
    rcases hM : ReplaceMacroE macroFuel (vl.getD 1 "") (dscMacros cfg st ty) true
      with e | v1 <;> rw [hM] at h
    · exact Except.noConfusion h
    · simp only [Except.ok.injEq, Prod.mk.injEq] at h
      rw [← h.1]
  rw [if_neg c8] at h
  by_cases c9 : ty ∈ pcdModels
  · rw [if_pos c9] at h
    rcases hM : ppProcessPcd cfg st ty vl with e | p <;> rw [hM] at h
    · exact Except.noConfusion h
    · simp only [Except.ok.injEq, Prod.mk.injEq] at h
      rw [← h.1]
      exact ppProcessPcd_table cfg st ty vl p.1 p.2 hM
  rw [if_neg c9] at h
  by_cases c10 : ty = MODEL_META_DATA_COMPONENT
  · rw [if_pos c10] at h
    simp only [Except.ok.injEq, Prod.mk.injEq] at h
    rw [← h.1]
  rw [if_neg c10] at h
  by_cases c11 : ty = MODEL_META_DATA_BUILD_OPTION
  · rw [if_pos c11] at h
    simp only [Except.ok.injEq, Prod.mk.injEq] at h
    rw [← h.1]
  rw [if_neg c11] at h
  by_cases c12 : ty = MODEL_UNKNOWN
  · rw [if_pos c12] at h
    simp only [Except.ok.injEq, Prod.mk.injEq] at h
    rw [← h.1]
  rw [if_neg c12] at h
  by_cases c13 : ty = MODEL_META_DATA_USER_EXTENSION
  · rw [if_pos c13] at h
    simp only [Except.ok.injEq, Prod.mk.injEq] at h
    rw [← h.1]
  rw [if_neg c13] at h
  by_cases c14 : ty = MODEL_META_DATA_CONDITIONAL_STATEMENT_ERROR
  · rw [if_pos c14] at h
    split at h
    · simp only [Except.ok.injEq, Prod.mk.injEq] at h
      rw [← h.1]
    · exact Except.noConfusion h
  rw [if_neg c14] at h
  exact Except.noConfusion h

/-- PlatformTable.Insert appends exactly one record, carrying the given
model and enabled flag. -/
theorem PlatformTable.Insert_append (t : PlatformTable) (M : Int)
    (V1 V2 V3 S1 S2 S3 : String) (B F SL SC EL EC : Int) (Cm Cd Inc : String)
    (E : Int) :
    ∃ r, (t.Insert M V1 V2 V3 S1 S2 S3 B F SL SC EL EC Cm Cd Inc E).1.CurrentContent =
        t.CurrentContent ++ [r] ∧ r.Model = M ∧ r.Enabled = E :=
  ⟨_, rfl, rfl, rfl⟩

/-- Raw-table record with the scopes, owner and enabled flag the first
parsing pass gives a top-level line. -/
def mkRec (id : Int) (model : Int) (v1 v2 v3 : String) (line : Int) : DscLine :=
  { ID := id, Model := model, Value1 := v1, Value2 := v2, Value3 := v3,
    Scope1 := "COMMON", Scope2 := "COMMON", Scope3 := "COMMON", BelongsToItem := -1,
    FromItem := -1, StartLine := line, StartColumn := -1, EndLine := line, EndColumn := -1,
    Comment := "", Condition := "", Included := "", Enabled := 1 }

/-- Concrete oracle configuration: the expression evaluator knows only the
constant expression 0, PCD value lookup raises, and includes expand to no
records. -/
def cfgT : PPConfig :=
  { ranStr := "Xq7Rt2Vz",
    exprEval := fun e _ => if e = "0" then .ok false else .raise,
    pcdEval := fun _ _ => none,
    includeEval := fun _ _ => .records [],
    gGlobalDefines := [("WORKSPACE", "ws")],
    gCommandLineDefines := [], buildOptionPcdMacros := [] }

/-- Raw store of a file holding just an undefined-macro !ifdef and its
!endif. -/
def rawC2 : PlatformTable :=
  { CurrentContent :=
      [mkRec 10000001 MODEL_META_DATA_CONDITIONAL_STATEMENT_IFDEF "!ifdef" "FOO" "" 1,
       mkRec 10000002 MODEL_META_DATA_CONDITIONAL_STATEMENT_ENDIF "!endif" "" "" 2],
    ID := 10000002 }

/-- C2: refuted as stated.  Post-processing the two-directive file
succeeds, and the resolved store still contains a record whose model is
CONDITIONAL_STATEMENT_ENDIF (the !ifdef record is also stored, with
enabled = 0, so it is only hidden from enabled-filtered reads). -/
theorem C2_counterexample :
    ((postProcess cfgT 100 ppInitState rawC2).map
        (fun st => (st.table.GetAll.map (fun r => r.Model),
                    st.table.CurrentContent.map (fun r => (r.Model, r.Enabled))))) =
      .ok ([ MODEL_META_DATA_CONDITIONAL_STATEMENT_ENDIF],
           [(MODEL_META_DATA_CONDITIONAL_STATEMENT_IFDEF, 0),
            (MODEL_META_DATA_CONDITIONAL_STATEMENT_ENDIF, 1)]) := by decide

/-- C2 (amended): conditional directive records are not consumed: every
successfully post-processed CONDITIONAL_* raw record appends exactly one
record to the resolved store, with the directive's model preserved (only a
bang-include whose enabled expansion yields records is consumed). -/
theorem C2_theorem (cfg : PPConfig) (st : PPState) (item : DscLine)
    (rest : List DscLine) (st' : PPState) (rest' : List DscLine)
    (hm : item.Model ∈ condModels)
    (h : ppStep cfg st item rest = .ok (st', rest')) :
    ∃ r, st'.table.CurrentContent = st.table.CurrentContent ++ [r] ∧
      r.Model = item.Model := by
  have hm2 := hm
  simp only [condModels, List.mem_cons, List.not_mem_nil, or_false] at hm2
  have hdm : item.Model ∈ directiveModels := by
    rcases hm2 with h1 | h1 | h1 | h1 | h1 | h1 <;> (rw [h1]; decide)
  have hne : item.Model ≠ MODEL_META_DATA_INCLUDE := by
    rcases hm2 with h1 | h1 | h1 | h1 | h1 | h1 <;> (rw [h1]; decide)
  unfold ppStep at h
  dsimp only [] at h
  rw [if_neg hne] at h
  dsimp only [] at h
  rw [ppProcess_directive _ _ _ _ _ hdm] at h
  repeat' split at h
  · exact Except.noConfusion h
  · rename_i x st1 splice vlOpt heq
    exact Option.noConfusion (ppDirective_cond _ _ _ _ _ _ _ _ hne heq).1
  · rename_i x st1 splice vlOpt vl1 heq hstk
    have htab0 := ppDirective_table _ _ _ _ _ _ _ _ heq
    have htab : st1.table = st.table := htab0
    simp only [Except.ok.injEq, Prod.mk.injEq] at h
    obtain ⟨r, hr, hrM, hrE⟩ := PlatformTable.Insert_append st1.table item.Model
      (vl1.getD 0 "") (vl1.getD 1 "") (vl1.getD 2 "") item.Scope1 item.Scope2 item.Scope3
      (imget st1.idMapping item.BelongsToItem) st1.fromItem (st1.lineIndex + 1) (-1)
      (st1.lineIndex + 1) (-1) "" "" "" 1
    refine ⟨r, ?_, hrM⟩
    rw [← h.1]
    dsimp only []
    rw [hr, htab]
  · rename_i x st1 splice vlOpt vl1 heq hstk
    have htab0 := ppDirective_table _ _ _ _ _ _ _ _ heq
    have htab : st1.table = st.table := htab0
    simp only [Except.ok.injEq, Prod.mk.injEq] at h
    obtain ⟨r, hr, hrM, hrE⟩ := PlatformTable.Insert_append st1.table item.Model
      (vl1.getD 0 "") (vl1.getD 1 "") (vl1.getD 2 "") item.Scope1 item.Scope2 item.Scope3
      (imget st1.idMapping item.BelongsToItem) st1.fromItem (st1.lineIndex + 1) (-1)
      (st1.lineIndex + 1) (-1) "" "" "" 0
    refine ⟨r, ?_, hrM⟩
    rw [← h.1]
    dsimp only []
    rw [hr, htab]

/-- A single undefined-macro !ifdef record. -/
def itemC2 : DscLine :=
  mkRec 10000001 MODEL_META_DATA_CONDITIONAL_STATEMENT_IFDEF "!ifdef" "FOO" "" 1

/-- The content-loop step on the !ifdef record from the fresh state. -/
def C2res : PPState × List DscLine :=
  (ppStep cfgT ppInitState itemC2 []).toOption.getD (ppInitState, [])

theorem C2_witness :
    itemC2.Model ∈ condModels ∧
    ∃ r, C2res.1.table.CurrentContent = ppInitState.table.CurrentContent ++ [r] ∧
      r.Model = itemC2.Model :=
  ⟨by decide, C2_theorem cfgT ppInitState itemC2 [] C2res.1 C2res.2 (by decide) (by decide)⟩

/-- Raw store of a file wrapping a SkuIds line in !if 0 ... !endif. -/
def rawC5 : PlatformTable :=
  { CurrentContent :=
      [mkRec 10000001 MODEL_META_DATA_CONDITIONAL_STATEMENT_IF "!if" "0" "" 1,
       mkRec 10000002 MODEL_EFI_SKU_ID "0" "DEFAULT" "" 2,
       mkRec 10000003 MODEL_META_DATA_CONDITIONAL_STATEMENT_ENDIF "!endif" "" "" 3],
    ID := 10000003 }

/-- C5: every record the content loop appends to the resolved store
carries enabled = 1 exactly when the directive evaluation stack is empty
or free of false entries; and in the concrete !if 0 file the guarded
SkuIds record sits in the raw store with its model preserved, is stored
resolved with enabled = 0, and is absent from the enabled-filtered query. -/
theorem C5_theorem :
    (∀ cfg st item rest st' rest', ppStep cfg st item rest = .ok (st', rest') →
      st'.table.CurrentContent = st.table.CurrentContent ∨
      ∃ r, st'.table.CurrentContent = st.table.CurrentContent ++ [r] ∧
        r.Enabled = (if stackOk st'.directiveEvalStack then 1 else 0)) ∧
    (rawC5.GetAll.map (fun r => r.Model),
     (postProcess cfgT 100 ppInitState rawC5).map (fun s =>
        (s.table.CurrentContent.map (fun r => (r.Model, r.Enabled)),
         (s.table.Query MODEL_EFI_SKU_ID none none none none).length))) =
      ([ MODEL_META_DATA_CONDITIONAL_STATEMENT_IF, MODEL_EFI_SKU_ID,
        MODEL_META_DATA_CONDITIONAL_STATEMENT_ENDIF],
       .ok ([(MODEL_META_DATA_CONDITIONAL_STATEMENT_IF, 0), (MODEL_EFI_SKU_ID, 0),
             (MODEL_META_DATA_CONDITIONAL_STATEMENT_ENDIF, 1)], 0)) := by
  constructor
  · intro cfg st item rest st' rest' h
    unfold ppStep at h
    dsimp only [] at h
    by_cases hinc : item.Model = MODEL_META_DATA_INCLUDE
    · rw [if_pos hinc] at h
      repeat' split at h
      · exact Except.noConfusion h
      · rename_i x st1 splice vlOpt heq
        refine Or.inl ?_
        simp only [Except.ok.injEq, Prod.mk.injEq] at h
        rw [← h.1]
        have ht0 := ppProcess_table _ _ _ _ _ _ _ _ heq
        exact congrArg PlatformTable.CurrentContent ht0
      · rename_i x st1 splice vlOpt vl1 heq hstk
        have htab0 := ppProcess_table _ _ _ _ _ _ _ _ heq
        have htab : st1.table = st.table := htab0
        simp only [Except.ok.injEq, Prod.mk.injEq] at h
        obtain ⟨r, hr, hrM, hrE⟩ := PlatformTable.Insert_append st1.table item.Model
          (vl1.getD 0 "") (vl1.getD 1 "") (vl1.getD 2 "") item.Scope1 item.Scope2 item.Scope3
          (imget st1.idMapping item.BelongsToItem) st1.fromItem (st1.lineIndex + 1) (-1)
          (st1.lineIndex + 1) (-1) "" "" "" 1
        refine Or.inr ⟨r, ?_, ?_⟩
        · rw [← h.1]
          dsimp only []
          rw [hr, htab]
        · rw [hrE, ← h.1]
          dsimp only []
          rw [hstk]
          decide
      · rename_i x st1 splice vlOpt vl1 heq hstk
        have htab0 := ppProcess_table _ _ _ _ _ _ _ _ heq
        have htab : st1.table = st.table := htab0
        simp only [Except.ok.injEq, Prod.mk.injEq] at h
        obtain ⟨r, hr, hrM, hrE⟩ := PlatformTable.Insert_append st1.table item.Model
          (vl1.getD 0 "") (vl1.getD 1 "") (vl1.getD 2 "") item.Scope1 item.Scope2 item.Scope3
          (imget st1.idMapping item.BelongsToItem) st1.fromItem (st1.lineIndex + 1) (-1)
          (st1.lineIndex + 1) (-1) "" "" "" 0
        refine Or.inr ⟨r, ?_, ?_⟩
        · rw [← h.1]
          dsimp only []
          rw [hr, htab]
        · rw [hrE, ← h.1]
          dsimp only []
          rw [if_neg hstk]
    · rw [if_neg hinc] at h
      dsimp only [] at h
      repeat' split at h
      · exact Except.noConfusion h
      · rename_i x st1 splice vlOpt heq
        refine Or.inl ?_
        simp only [Except.ok.injEq, Prod.mk.injEq] at h
        rw [← h.1]
        have ht0 := ppProcess_table _ _ _ _ _ _ _ _ heq
        exact congrArg PlatformTable.CurrentContent ht0
      · rename_i x st1 splice vlOpt vl1 heq hstk
        have htab0 := ppProcess_table _ _ _ _ _ _ _ _ heq
        have htab : st1.table = st.table := htab0
        simp only [Except.ok.injEq, Prod.mk.injEq] at h
        obtain ⟨r, hr, hrM, hrE⟩ := PlatformTable.Insert_append st1.table item.Model
          (vl1.getD 0 "") (vl1.getD 1 "") (vl1.getD 2 "") item.Scope1 item.Scope2 item.Scope3
          (imget st1.idMapping item.BelongsToItem) st1.fromItem (st1.lineIndex + 1) (-1)
          (st1.lineIndex + 1) (-1) "" "" "" 1
        refine Or.inr ⟨r, ?_, ?_⟩
        · rw [← h.1]
          dsimp only []
          rw [hr, htab]
        · rw [hrE, ← h.1]
          dsimp only []
          rw [hstk]
          decide
      · rename_i x st1 splice vlOpt vl1 heq hstk
        have htab0 := ppProcess_table _ _ _ _ _ _ _ _ heq
        have htab : st1.table = st.table := htab0
        simp only [Except.ok.injEq, Prod.mk.injEq] at h
        obtain ⟨r, hr, hrM, hrE⟩ := PlatformTable.Insert_append st1.table item.Model
          (vl1.getD 0 "") (vl1.getD 1 "") (vl1.getD 2 "") item.Scope1 item.Scope2 item.Scope3
          (imget st1.idMapping item.BelongsToItem) st1.fromItem (st1.lineIndex + 1) (-1)
          (st1.lineIndex + 1) (-1) "" "" "" 0
        refine Or.inr ⟨r, ?_, ?_⟩
        · rw [← h.1]
          dsimp only []
          rw [hr, htab]
        · rw [hrE, ← h.1]
          dsimp only []
          rw [if_neg hstk]
  · decide

/-- A top-level SkuIds record. -/
def itemC5 : DscLine := mkRec 10000002 MODEL_EFI_SKU_ID "0" "DEFAULT" "" 2

/-- The content-loop step on the SkuIds record from the fresh state. -/
def C5res : PPState × List DscLine :=
  (ppStep cfgT ppInitState itemC5 []).toOption.getD (ppInitState, [])

theorem C5_witness :
    C5res.1.table.CurrentContent = ppInitState.table.CurrentContent ∨
    ∃ r, C5res.1.table.CurrentContent = ppInitState.table.CurrentContent ++ [r] ∧
      r.Enabled = (if stackOk C5res.1.directiveEvalStack then 1 else 0) :=
  C5_theorem.1 cfgT ppInitState itemC5 [] C5res.1 C5res.2 (by decide)

/-- All negative ids resolve to the default -1 in the id mapping. -/
def negDefault (m : List (Int × Int)) : Prop :=
  ∀ k : Int, k < 0 → imget m k = -1

/-- Re-keying assignments at a different key do not change what find?
returns. -/
theorem find?_setkey (m : List (Int × Int)) (id v k : Int) (hk : k ≠ id) :
    List.find? (fun p => decide (p.1 = k)) (m.map (fun p => if p.1 = id then (id, v) else p)) =
      List.find? (fun p => decide (p.1 = k)) m := by
  induction m with
  | nil => rfl
  | cons p m ih =>
      simp only [List.map_cons, List.find?_cons]
      by_cases hp : p.1 = id
      · rw [if_pos hp]
        have h1 : (decide ((id, v).1 = k)) = false := decide_eq_false (fun hh => hk hh.symm)
        have h2 : (decide (p.1 = k)) = false := decide_eq_false (fun hh => hk (hh ▸ hp))
        simp only [h1, h2]
        exact ih
      · rw [if_neg hp]
        cases hq : (decide (p.1 = k))
        · simp only [hq]
          exact ih
        · simp only [hq]

/-- Assigning a non-matching key leaves a lookup unchanged. -/
theorem imget_iminsert_ne (m : List (Int × Int)) (id v k : Int) (hk : k ≠ id) :
    imget (iminsert m id v) k = imget m k := by
  unfold iminsert
  split
  · unfold imget
    rw [find?_setkey m id v k hk]
  · unfold imget
    have h1 : List.find? (fun p => decide (p.1 = k)) [(id, v)] = none := by
      have hd : (decide ((id, v).1 = k)) = false := decide_eq_false (fun hh => hk hh.symm)
      simp only [List.find?_cons, List.find?_nil, hd]
    rw [List.find?_append, h1]
    cases List.find? (fun p => decide (p.1 = k)) m <;> rfl

/-- Assigning a non-negative id preserves the negative-default property. -/
theorem negDefault_iminsert (m : List (Int × Int)) (id v : Int) (hid : 0 ≤ id)
    (h : negDefault m) : negDefault (iminsert m id v) := by
  intro k hk
  rw [imget_iminsert_ne m id v k (by omega)]
  exact h k hk

/-- The fresh id mapping maps every negative id to -1. -/
theorem negDefault_init : negDefault [((-1 : Int), (-1 : Int))] := by
  intro k hk
  by_cases h1 : k = (-1 : Int)
  · simp [imget, h1]
  · have hd : (decide ((-1 : Int) = k)) = false := decide_eq_false (fun hh => h1 hh.symm)
    simp [imget, List.find?_cons, hd]

/-- An empty section macro table contributes no applicable macros. -/
theorem getApplicableSectionMacro_nil (t : Int)
    (sc : List (String × String × String)) :
    getApplicableSectionMacro [] t sc = [] := rfl

/-- The record models whose processors only read the shared parser state
(no define records, no feature-flag or fixed-at-build PCDs, no includes
and no error directives). -/
def benignModels : List Int :=
  [ MODEL_META_DATA_SECTION_HEADER, MODEL_META_DATA_SUBSECTION_HEADER, MODEL_EFI_SKU_ID,
   MODEL_EFI_DEFAULT_STORES, MODEL_EFI_LIBRARY_INSTANCE, MODEL_EFI_LIBRARY_CLASS,
   MODEL_META_DATA_PACKAGE, MODEL_META_DATA_COMPONENT, MODEL_META_DATA_BUILD_OPTION,
   MODEL_UNKNOWN, MODEL_META_DATA_USER_EXTENSION,
   MODEL_PCD_PATCHABLE_IN_MODULE, MODEL_PCD_DYNAMIC_DEFAULT, MODEL_PCD_DYNAMIC_HII,
   MODEL_PCD_DYNAMIC_VPD, MODEL_PCD_DYNAMIC_EX_DEFAULT, MODEL_PCD_DYNAMIC_EX_HII,
   MODEL_PCD_DYNAMIC_EX_VPD,
   MODEL_META_DATA_CONDITIONAL_STATEMENT_IF, MODEL_META_DATA_CONDITIONAL_STATEMENT_ELSE,
   MODEL_META_DATA_CONDITIONAL_STATEMENT_IFDEF, MODEL_META_DATA_CONDITIONAL_STATEMENT_IFNDEF,
   MODEL_META_DATA_CONDITIONAL_STATEMENT_ENDIF, MODEL_META_DATA_CONDITIONAL_STATEMENT_ELSEIF]

/-- Observational agreement of two post-processor states: all components
that the benign processors read coincide, the section macro tables are
empty, and both id mappings send negative owners to the default -1. -/
def ppAgree (s1 s2 : PPState) : Prop :=
  s1.table = s2.table ∧ s1.directiveStack = s2.directiveStack ∧
  s1.directiveEvalStack = s2.directiveEvalStack ∧
  s1.fileLocalMacros = s2.fileLocalMacros ∧ s1.symbols = s2.symbols ∧
  s1.gEdkGlobal = s2.gEdkGlobal ∧ s1.gPlatformDefines = s2.gPlatformDefines ∧
  s1.gPlatformPcds = s2.gPlatformPcds ∧ s1.currentLine = s2.currentLine ∧
  s1.sectionsMacroDict = [] ∧ s2.sectionsMacroDict = [] ∧
  negDefault s1.idMapping ∧ negDefault s2.idMapping

/-- Two observationally agreeing states build the same macro dictionary:
all layers coincide, the section macro layer being empty on both sides. -/
theorem dscMacros_cong (cfg : PPConfig) (s1 s2 : PPState) (ty : Int)
    (hR : ppAgree s1 s2) : dscMacros cfg s1 ty = dscMacros cfg s2 ty := by
  obtain ⟨hT, hDS, hES, hFL, hSY, hEG, hPD, hPP, hCL, hM1, hM2, hN1, hN2⟩ := hR
  unfold dscMacros
  rw [hFL, hSY, hEG, hPD, hM1, hM2, getApplicableSectionMacro_nil,
    getApplicableSectionMacro_nil]

/-- A non-include directive only touches the two directive stacks. -/
theorem ppDirective_frame (cfg : PPConfig) (s : PPState) (ty : Int) (vl : List String)
    (rec : DscLine) (u : PPState) (o : Option (List String)) (sp : List DscLine)
    (hne : ty ≠ MODEL_META_DATA_INCLUDE)
    (h : ppDirective cfg s ty vl rec = .ok (u, o, sp)) :
    u.symbols = s.symbols ∧ u.gEdkGlobal = s.gEdkGlobal ∧
    u.gPlatformPcds = s.gPlatformPcds ∧ u.currentLine = s.currentLine ∧
    u.sectionsMacroDict = s.sectionsMacroDict ∧ u.fileLocalMacros = s.fileLocalMacros ∧
    u.idMapping = s.idMapping ∧ u.gPlatformDefines = s.gPlatformDefines ∧
    u.fromItem = s.fromItem ∧ u.lineIndex = s.lineIndex := by
  unfold ppDirective at h
  repeat' split at h
  all_goals simp_all
  all_goals (obtain ⟨hu, ho, hs⟩ := h
             subst hu
             exact ⟨rfl, rfl, rfl, rfl, rfl, rfl, rfl, rfl, rfl, rfl⟩)

/-- Two observationally agreeing states process a non-include directive
to observationally agreeing states with the same surviving value list. -/
theorem ppDirective_cong (cfg : PPConfig) (s1 s2 : PPState) (ty : Int) (vl : List String)
    (rec1 rec2 : DscLine) (u1 u2 : PPState) (o1 o2 : Option (List String))
    (sp1 sp2 : List DscLine)
    (hne : ty ≠ MODEL_META_DATA_INCLUDE) (hR : ppAgree s1 s2)
    (h1 : ppDirective cfg s1 ty vl rec1 = .ok (u1, o1, sp1))
    (h2 : ppDirective cfg s2 ty vl rec2 = .ok (u2, o2, sp2)) :
    ppAgree u1 u2 ∧ o1 = o2 := by
  have hM : dscMacros cfg s1 ty = dscMacros cfg s2 ty := dscMacros_cong cfg s1 s2 ty hR
  have hEv : ppDirectiveEval cfg s1 ty vl = ppDirectiveEval cfg s2 ty vl := by
    unfold ppDirectiveEval
    rw [hM]
  obtain ⟨hT, hDS, hES, hFL, hSY, hEG, hPD, hPP, hCL, hM1, hM2, hN1, hN2⟩ := hR
  unfold ppDirective at h1 h2
  rw [hEv] at h1
  rcases hE : ppDirectiveEval cfg s2 ty vl with e | ro
  · rw [hE] at h1
    simp at h1
  · rw [hE] at h1 h2
    simp only [] at h1 h2
    by_cases c1 : ty = MODEL_META_DATA_CONDITIONAL_STATEMENT_IF ∨
        ty = MODEL_META_DATA_CONDITIONAL_STATEMENT_IFDEF ∨
        ty = MODEL_META_DATA_CONDITIONAL_STATEMENT_IFNDEF
    · rw [if_pos c1] at h1 h2
      rw [hM] at h1
      simp only [Except.ok.injEq, Prod.mk.injEq] at h1 h2
      obtain ⟨hu1, ho1, hs1⟩ := h1
      obtain ⟨hu2, ho2, hs2⟩ := h2
      subst hu1
      subst hu2
      subst ho1
      subst ho2
      refine ⟨⟨hT, ?_, ?_, hFL, hSY, hEG, hPD, hPP, hCL, hM1, hM2, hN1, hN2⟩, rfl⟩
      · rw [hDS]
      · rw [hES]
    rw [if_neg c1] at h1 h2
    by_cases c2 : ty = MODEL_META_DATA_CONDITIONAL_STATEMENT_ELSEIF
    · rw [if_pos c2] at h1 h2
      rw [hES] at h1
      rcases hS : s2.directiveEvalStack with _ | ⟨b, rest⟩ <;> rw [hS] at h1 h2
      · simp at h1
      · simp only [Except.ok.injEq, Prod.mk.injEq] at h1 h2
        obtain ⟨hu1, ho1, hs1⟩ := h1
        obtain ⟨hu2, ho2, hs2⟩ := h2
        subst hu1
        subst hu2
        subst ho1
        subst ho2
        refine ⟨⟨hT, ?_, rfl, hFL, hSY, hEG, hPD, hPP, hCL, hM1, hM2, hN1, hN2⟩, rfl⟩
        rw [hDS]
    rw [if_neg c2] at h1 h2
    by_cases c3 : ty = MODEL_META_DATA_CONDITIONAL_STATEMENT_ELSE
    · rw [if_pos c3] at h1 h2
      rw [hES] at h1
      rcases hS : s2.directiveEvalStack with _ | ⟨b, rest⟩ <;> rw [hS] at h1 h2
      · simp at h1
      · simp only [Except.ok.injEq, Prod.mk.injEq] at h1 h2
        obtain ⟨hu1, ho1, hs1⟩ := h1
        obtain ⟨hu2, ho2, hs2⟩ := h2
        subst hu1
        subst hu2
        subst ho1
        subst ho2
        refine ⟨⟨hT, ?_, rfl, hFL, hSY, hEG, hPD, hPP, hCL, hM1, hM2, hN1, hN2⟩, rfl⟩
        rw [hDS]
    rw [if_neg c3] at h1 h2
    by_cases c4 : ty = MODEL_META_DATA_CONDITIONAL_STATEMENT_ENDIF
    · rw [if_pos c4] at h1 h2
      rw [hDS, hES] at h1
      rcases hP : endifPop s2.directiveStack s2.directiveEvalStack with e | pr <;>
        rw [hP] at h1 h2
      · simp at h1
      · rcases pr with ⟨ds, es⟩
        simp only [Except.ok.injEq, Prod.mk.injEq] at h1 h2
        obtain ⟨hu1, ho1, hs1⟩ := h1
        obtain ⟨hu2, ho2, hs2⟩ := h2
        subst hu1
        subst hu2
        subst ho1
        subst ho2
        exact ⟨⟨hT, rfl, rfl, hFL, hSY, hEG, hPD, hPP, hCL, hM1, hM2, hN1, hN2⟩, rfl⟩
    rw [if_neg c4] at h1 h2
    rw [if_neg hne] at h1 h2
    simp only [Except.ok.injEq, Prod.mk.injEq] at h1 h2
    obtain ⟨hu1, ho1, hs1⟩ := h1
    obtain ⟨hu2, ho2, hs2⟩ := h2
    subst hu1
    subst hu2
    subst ho1
    subst ho2
    exact ⟨⟨hT, hDS, hES, hFL, hSY, hEG, hPD, hPP, hCL, hM1, hM2, hN1, hN2⟩, rfl⟩

/-- For PCD models other than FeatureFlag and FixedAtBuild, __ProcessPcd
only macro-expands the value. -/
theorem ppProcessPcd_benign (cfg : PPConfig) (s : PPState) (ty : Int) (vl : List String)
    (hFF : ty ≠ MODEL_PCD_FEATURE_FLAG) (hFAB : ty ≠ MODEL_PCD_FIXED_AT_BUILD) :
    ppProcessPcd cfg s ty vl =
      match ReplaceMacroE macroFuel (vl.getD 2 "") (dscMacros cfg s ty) true with
      | .error e => .error e
      | .ok v2 => .ok (s, some [vl.getD 0 "", vl.getD 1 "", v2]) := by
  unfold ppProcessPcd
  rw [if_pos ⟨hFF, hFAB⟩]

/-- Benign-model processing only reads the shared state: every component
other than the two directive stacks and the section names is unchanged,
and nothing is spliced into the remaining content. -/
theorem ppProcess_frame (cfg : PPConfig) (s : PPState) (ty : Int) (vl : List String)
    (rec : DscLine) (u : PPState) (o : Option (List String)) (sp : List DscLine)
    (hb : ty ∈ benignModels)
    (h : ppProcess cfg s ty vl rec = .ok (u, o, sp)) :
    u.symbols = s.symbols ∧ u.gEdkGlobal = s.gEdkGlobal ∧
    u.gPlatformPcds = s.gPlatformPcds ∧ u.currentLine = s.currentLine ∧
    u.sectionsMacroDict = s.sectionsMacroDict ∧ u.fileLocalMacros = s.fileLocalMacros ∧
    u.idMapping = s.idMapping ∧ u.gPlatformDefines = s.gPlatformDefines ∧
    u.fromItem = s.fromItem ∧ u.lineIndex = s.lineIndex ∧ sp = [] := by
  have hDfn : ¬(ty = MODEL_META_DATA_HEADER ∨ ty = MODEL_META_DATA_DEFINE ∨
      ty = MODEL_META_DATA_GLOBAL_DEFINE) := by
    rintro (rfl | rfl | rfl) <;> exact absurd hb (by decide)
  have hINC : ty ≠ MODEL_META_DATA_INCLUDE := fun hEq => absurd (hEq ▸ hb) (by decide)
  have hERR : ty ≠ MODEL_META_DATA_CONDITIONAL_STATEMENT_ERROR :=
    fun hEq => absurd (hEq ▸ hb) (by decide)
  have hFF : ty ≠ MODEL_PCD_FEATURE_FLAG := fun hEq => absurd (hEq ▸ hb) (by decide)
  have hFAB : ty ≠ MODEL_PCD_FIXED_AT_BUILD := fun hEq => absurd (hEq ▸ hb) (by decide)
  unfold ppProcess at h
  by_cases c1 : ty = MODEL_META_DATA_SECTION_HEADER
  · rw [if_pos c1] at h
    simp only [Except.ok.injEq, Prod.mk.injEq] at h
    obtain ⟨hu, ho, hs⟩ := h
    subst hu
    exact ⟨rfl, rfl, rfl, rfl, rfl, rfl, rfl, rfl, rfl, rfl, hs.symm⟩
  rw [if_neg c1] at h
  by_cases c2 : ty = MODEL_META_DATA_SUBSECTION_HEADER
  · rw [if_pos c2] at h
    simp only [Except.ok.injEq, Prod.mk.injEq] at h
    obtain ⟨hu, ho, hs⟩ := h
    subst hu
    exact ⟨rfl, rfl, rfl, rfl, rfl, rfl, rfl, rfl, rfl, rfl, hs.symm⟩
  rw [if_neg c2, if_neg hDfn] at h
  by_cases c4 : ty ∈ directiveModels
  · rw [if_pos c4] at h
    obtain ⟨a1, a2, a3, a4, a5, a6, a7, a8, a9, a10⟩ :=
      ppDirective_frame cfg s ty vl rec u o sp hINC h
    exact ⟨a1, a2, a3, a4, a5, a6, a7, a8, a9, a10,
      (ppDirective_cond cfg s ty vl rec u o sp hINC h).2⟩
  rw [if_neg c4] at h
  by_cases c5 : ty = MODEL_META_DATA_PACKAGE
  · rw [if_pos c5] at h
    simp only [Except.ok.injEq, Prod.mk.injEq] at h
    obtain ⟨hu, ho, hs⟩ := h
    subst hu
    exact ⟨rfl, rfl, rfl, rfl, rfl, rfl, rfl, rfl, rfl, rfl, hs.symm⟩
  rw [if_neg c5] at h
  by_cases c6 : ty = MODEL_EFI_SKU_ID ∨ ty = MODEL_EFI_DEFAULT_STORES
  · rw [if_pos c6] at h
    rcases hX : replaceAllE (dscMacros cfg s ty) vl with e | vl1 <;> rw [hX] at h
    · exact Except.noConfusion h
    · simp only [Except.ok.injEq, Prod.mk.injEq] at h
      obtain ⟨hu, ho, hs⟩ := h
      subst hu
      exact ⟨rfl, rfl, rfl, rfl, rfl, rfl, rfl, rfl, rfl, rfl, hs.symm⟩
  rw [if_neg c6] at h
  by_cases c7 : ty = MODEL_EFI_LIBRARY_INSTANCE
  · rw [if_pos c7] at h
    simp only [Except.ok.injEq, Prod.mk.injEq] at h
    obtain ⟨hu, ho, hs⟩ := h
    subst hu
    exact ⟨rfl, rfl, rfl, rfl, rfl, rfl, rfl, rfl, rfl, rfl, hs.symm⟩
  rw [if_neg c7] at h
  by_cases c8 : ty = MODEL_EFI_LIBRARY_CLASS
  · rw [if_pos c8] at h
    rcases hX : ReplaceMacroE macroFuel (vl.getD 1 "") (dscMacros cfg s ty) true
      with e | v1 <;> rw [hX] at h
    · exact Except.noConfusion h
    · simp only [Except.ok.injEq, Prod.mk.injEq] at h
      obtain ⟨hu, ho, hs⟩ := h
      subst hu
      exact ⟨rfl, rfl, rfl, rfl, rfl, rfl, rfl, rfl, rfl, rfl, hs.symm⟩
  rw [if_neg c8] at h
  by_cases c9 : ty ∈ pcdModels
  · rw [if_pos c9, ppProcessPcd_benign cfg s ty vl hFF hFAB] at h
    rcases hX : ReplaceMacroE macroFuel (vl.getD 2 "") (dscMacros cfg s ty) true
      with e | v2 <;> rw [hX] at h
    · exact Except.noConfusion h
    · simp only [] at h
      simp only [Except.ok.injEq, Prod.mk.injEq] at h
      obtain ⟨hu, ho, hs⟩ := h
      subst hu
      exact ⟨rfl, rfl, rfl, rfl, rfl, rfl, rfl, rfl, rfl, rfl, hs.symm⟩
  rw [if_neg c9] at h
  by_cases c10 : ty = MODEL_META_DATA_COMPONENT
  · rw [if_pos c10] at h
    simp only [Except.ok.injEq, Prod.mk.injEq] at h
    obtain ⟨hu, ho, hs⟩ := h
    subst hu
    exact ⟨rfl, rfl, rfl, rfl, rfl, rfl, rfl, rfl, rfl, rfl, hs.symm⟩
  rw [if_neg c10] at h
  by_cases c11 : ty = MODEL_META_DATA_BUILD_OPTION
  · rw [if_pos c11] at h
    simp only [Except.ok.injEq, Prod.mk.injEq] at h
    obtain ⟨hu, ho, hs⟩ := h
    subst hu
    exact ⟨rfl, rfl, rfl, rfl, rfl, rfl, rfl, rfl, rfl, rfl, hs.symm⟩
  rw [if_neg c11] at h
  by_cases c12 : ty = MODEL_UNKNOWN
  · rw [if_pos c12] at h
    simp only [Except.ok.injEq, Prod.mk.injEq] at h
    obtain ⟨hu, ho, hs⟩ := h
    subst hu
    exact ⟨rfl, rfl, rfl, rfl, rfl, rfl, rfl, rfl, rfl, rfl, hs.symm⟩
  rw [if_neg c12] at h
  by_cases c13 : ty = MODEL_META_DATA_USER_EXTENSION
  · rw [if_pos c13] at h
    simp only [Except.ok.injEq, Prod.mk.injEq] at h
    obtain ⟨hu, ho, hs⟩ := h
    subst hu
    exact ⟨rfl, rfl, rfl, rfl, rfl, rfl, rfl, rfl, rfl, rfl, hs.symm⟩
  rw [if_neg c13, if_neg hERR] at h
  exact Except.noConfusion h

/-- Benign-model processing sends observationally agreeing states to
observationally agreeing states and produces the same surviving value
list. -/
theorem ppProcess_cong (cfg : PPConfig) (s1 s2 : PPState) (ty : Int) (vl : List String)
    (rec1 rec2 : DscLine) (u1 u2 : PPState) (o1 o2 : Option (List String))
    (sp1 sp2 : List DscLine)
    (hb : ty ∈ benignModels) (hR : ppAgree s1 s2)
    (h1 : ppProcess cfg s1 ty vl rec1 = .ok (u1, o1, sp1))
    (h2 : ppProcess cfg s2 ty vl rec2 = .ok (u2, o2, sp2)) :
    ppAgree u1 u2 ∧ o1 = o2 := by
  have hM : dscMacros cfg s1 ty = dscMacros cfg s2 ty := dscMacros_cong cfg s1 s2 ty hR
  have hDfn : ¬(ty = MODEL_META_DATA_HEADER ∨ ty = MODEL_META_DATA_DEFINE ∨
      ty = MODEL_META_DATA_GLOBAL_DEFINE) := by
    rintro (rfl | rfl | rfl) <;> exact absurd hb (by decide)
  have hINC : ty ≠ MODEL_META_DATA_INCLUDE := fun hEq => absurd (hEq ▸ hb) (by decide)
  have hERR : ty ≠ MODEL_META_DATA_CONDITIONAL_STATEMENT_ERROR :=
    fun hEq => absurd (hEq ▸ hb) (by decide)
  have hFF : ty ≠ MODEL_PCD_FEATURE_FLAG := fun hEq => absurd (hEq ▸ hb) (by decide)
  have hFAB : ty ≠ MODEL_PCD_FIXED_AT_BUILD := fun hEq => absurd (hEq ▸ hb) (by decide)
  obtain ⟨hT, hDS, hES, hFL, hSY, hEG, hPD, hPP, hCL, hM1, hM2, hN1, hN2⟩ := hR
  have hRR : ppAgree s1 s2 :=
    ⟨hT, hDS, hES, hFL, hSY, hEG, hPD, hPP, hCL, hM1, hM2, hN1, hN2⟩
  unfold ppProcess at h1 h2
  by_cases c1 : ty = MODEL_META_DATA_SECTION_HEADER
  · rw [if_pos c1] at h1 h2
    simp only [Except.ok.injEq, Prod.mk.injEq] at h1 h2
    obtain ⟨hu1, ho1, hs1⟩ := h1
    obtain ⟨hu2, ho2, hs2⟩ := h2
    subst hu1
    subst hu2
    subst ho1
    subst ho2
    exact ⟨⟨hT, hDS, hES, hFL, hSY, hEG, hPD, hPP, hCL, hM1, hM2, hN1, hN2⟩, rfl⟩
  rw [if_neg c1] at h1 h2
  by_cases c2 : ty = MODEL_META_DATA_SUBSECTION_HEADER
  · rw [if_pos c2] at h1 h2
    simp only [Except.ok.injEq, Prod.mk.injEq] at h1 h2
    obtain ⟨hu1, ho1, hs1⟩ := h1
    obtain ⟨hu2, ho2, hs2⟩ := h2
    subst hu1
    subst hu2
    subst ho1
    subst ho2
    exact ⟨⟨hT, hDS, hES, hFL, hSY, hEG, hPD, hPP, hCL, hM1, hM2, hN1, hN2⟩, rfl⟩
  rw [if_neg c2] at h1 h2
  rw [if_neg hDfn] at h1 h2
  by_cases c4 : ty ∈ directiveModels
  · rw [if_pos c4] at h1 h2
    exact ppDirective_cong cfg s1 s2 ty vl rec1 rec2 u1 u2 o1 o2 sp1 sp2 hINC hRR h1 h2
  rw [if_neg c4] at h1 h2
  by_cases c5 : ty = MODEL_META_DATA_PACKAGE
  · rw [if_pos c5] at h1 h2
    rw [hM] at h1
    simp only [Except.ok.injEq, Prod.mk.injEq] at h1 h2
    obtain ⟨hu1, ho1, hs1⟩ := h1
    obtain ⟨hu2, ho2, hs2⟩ := h2
    subst hu1
    subst hu2
    subst ho1
    subst ho2
    exact ⟨⟨hT, hDS, hES, hFL, hSY, hEG, hPD, hPP, hCL, hM1, hM2, hN1, hN2⟩, rfl⟩
  rw [if_neg c5] at h1 h2
  by_cases c6 : ty = MODEL_EFI_SKU_ID ∨ ty = MODEL_EFI_DEFAULT_STORES
  · rw [if_pos c6] at h1 h2
    rw [hM] at h1
    rcases hX : replaceAllE (dscMacros cfg s2 ty) vl with e | v <;> rw [hX] at h1 h2
    · exact Except.noConfusion h1
    · simp only [Except.ok.injEq, Prod.mk.injEq] at h1 h2
      obtain ⟨hu1, ho1, hs1⟩ := h1
      obtain ⟨hu2, ho2, hs2⟩ := h2
      subst hu1
      subst hu2
      subst ho1
      subst ho2
      exact ⟨⟨hT, hDS, hES, hFL, hSY, hEG, hPD, hPP, hCL, hM1, hM2, hN1, hN2⟩, rfl⟩
  rw [if_neg c6] at h1 h2
  by_cases c7 : ty = MODEL_EFI_LIBRARY_INSTANCE
  · rw [if_pos c7] at h1 h2
    rw [hM] at h1
    simp only [Except.ok.injEq, Prod.mk.injEq] at h1 h2
    obtain ⟨hu1, ho1, hs1⟩ := h1
    obtain ⟨hu2, ho2, hs2⟩ := h2
    subst hu1
    subst hu2
    subst ho1
    subst ho2
    exact ⟨⟨hT, hDS, hES, hFL, hSY, hEG, hPD, hPP, hCL, hM1, hM2, hN1, hN2⟩, rfl⟩
  rw [if_neg c7] at h1 h2
  by_cases c8 : ty = MODEL_EFI_LIBRARY_CLASS
  · rw [if_pos c8] at h1 h2
    rw [hM] at h1
    rcases hX : ReplaceMacroE macroFuel (vl.getD 1 "") (dscMacros cfg s2 ty) true with e | v <;> rw [hX] at h1 h2
    · exact Except.noConfusion h1
    · simp only [Except.ok.injEq, Prod.mk.injEq] at h1 h2
      obtain ⟨hu1, ho1, hs1⟩ := h1
      obtain ⟨hu2, ho2, hs2⟩ := h2
      subst hu1
      subst hu2
      subst ho1
      subst ho2
      exact ⟨⟨hT, hDS, hES, hFL, hSY, hEG, hPD, hPP, hCL, hM1, hM2, hN1, hN2⟩, rfl⟩
  rw [if_neg c8] at h1 h2
  by_cases c9 : ty ∈ pcdModels
  · rw [if_pos c9, ppProcessPcd_benign cfg s1 ty vl hFF hFAB] at h1
    rw [if_pos c9, ppProcessPcd_benign cfg s2 ty vl hFF hFAB] at h2
    rw [hM] at h1
    rcases hX : ReplaceMacroE macroFuel (vl.getD 2 "") (dscMacros cfg s2 ty) true
      with e | v <;> rw [hX] at h1 h2
    · exact Except.noConfusion h1
    · simp only [] at h1 h2
      simp only [Except.ok.injEq, Prod.mk.injEq] at h1 h2
      obtain ⟨hu1, ho1, hs1⟩ := h1
      obtain ⟨hu2, ho2, hs2⟩ := h2
      subst hu1
      subst hu2
      subst ho1
      subst ho2
      exact ⟨⟨hT, hDS, hES, hFL, hSY, hEG, hPD, hPP, hCL, hM1, hM2, hN1, hN2⟩, rfl⟩
  rw [if_neg c9] at h1 h2
  by_cases c10 : ty = MODEL_META_DATA_COMPONENT
  · rw [if_pos c10] at h1 h2
    rw [hM] at h1
    simp only [Except.ok.injEq, Prod.mk.injEq] at h1 h2
    obtain ⟨hu1, ho1, hs1⟩ := h1
    obtain ⟨hu2, ho2, hs2⟩ := h2
    subst hu1
    subst hu2
    subst ho1
    subst ho2
    exact ⟨⟨hT, hDS, hES, hFL, hSY, hEG, hPD, hPP, hCL, hM1, hM2, hN1, hN2⟩, rfl⟩
  rw [if_neg c10] at h1 h2
  by_cases c11 : ty = MODEL_META_DATA_BUILD_OPTION
  · rw [if_pos c11] at h1 h2
    rw [hM] at h1
    simp only [Except.ok.injEq, Prod.mk.injEq] at h1 h2
    obtain ⟨hu1, ho1, hs1⟩ := h1
    obtain ⟨hu2, ho2, hs2⟩ := h2
    subst hu1
    subst hu2
    subst ho1
    subst ho2
    exact ⟨⟨hT, hDS, hES, hFL, hSY, hEG, hPD, hPP, hCL, hM1, hM2, hN1, hN2⟩, rfl⟩
  rw [if_neg c11] at h1 h2
  by_cases c12 : ty = MODEL_UNKNOWN
  · rw [if_pos c12] at h1 h2
    rw [hCL] at h1
    simp only [Except.ok.injEq, Prod.mk.injEq] at h1 h2
    obtain ⟨hu1, ho1, hs1⟩ := h1
    obtain ⟨hu2, ho2, hs2⟩ := h2
    subst hu1
    subst hu2
    subst ho1
    subst ho2
    exact ⟨⟨hT, hDS, hES, hFL, hSY, hEG, hPD, hPP, hCL, hM1, hM2, hN1, hN2⟩, rfl⟩
  rw [if_neg c12] at h1 h2
  by_cases c13 : ty = MODEL_META_DATA_USER_EXTENSION
  · rw [if_pos c13] at h1 h2
    rw [hCL] at h1
    simp only [Except.ok.injEq, Prod.mk.injEq] at h1 h2
    obtain ⟨hu1, ho1, hs1⟩ := h1
    obtain ⟨hu2, ho2, hs2⟩ := h2
    subst hu1
    subst hu2
    subst ho1
    subst ho2
    exact ⟨⟨hT, hDS, hES, hFL, hSY, hEG, hPD, hPP, hCL, hM1, hM2, hN1, hN2⟩, rfl⟩
  rw [if_neg c13] at h1 h2
  rw [if_neg hERR] at h1
  exact Except.noConfusion h1

/-- Inversion of a non-include content-loop step: the processor ran on the
bookkeeping-updated state, and either the record was consumed (value list
None) or it was inserted into the resolved table. -/
theorem ppStep_inv (cfg : PPConfig) (s : PPState) (item : DscLine) (rest : List DscLine)
    (t : PPState) (r : List DscLine)
    (hne : item.Model ≠ MODEL_META_DATA_INCLUDE)
    (h : ppStep cfg s item rest = .ok (t, r)) :
    ∃ u o sp, ppProcess cfg
        { s with fromItem := item.FromItem,
                 scope := [(item.Scope1, item.Scope2, item.Scope3)],
                 lineIndex := item.StartLine - 1,
                 inSubsection := item.BelongsToItem > 0 && immem s.idMapping item.BelongsToItem }
        item.Model [item.Value1, item.Value2, item.Value3] item = .ok (u, o, sp) ∧
      ((o = none ∧ t = u ∧ r = sp ++ rest) ∨
       (∃ vl1, o = some vl1 ∧
         (∃ ins, ins = u.table.Insert item.Model (vl1.getD 0 "") (vl1.getD 1 "")
             (vl1.getD 2 "") item.Scope1 item.Scope2 item.Scope3
             (imget u.idMapping item.BelongsToItem) u.fromItem (u.lineIndex + 1) (-1)
             (u.lineIndex + 1) (-1) "" "" ""
             (if stackOk u.directiveEvalStack then 1 else 0) ∧
           t = { u with table := ins.1, enabled := stackOk u.directiveEvalStack,
                        idMapping := iminsert u.idMapping item.ID ins.2,
                        lastItem := ins.2 }) ∧ r = rest)) := by
  unfold ppStep at h
  dsimp only [] at h
  rw [if_neg hne] at h
  dsimp only [] at h
  repeat' split at h
  · exact Except.noConfusion h
  · rename_i x st1 splice vlOpt heq
    simp only [Except.ok.injEq, Prod.mk.injEq] at h
    exact ⟨st1, none, splice, heq, Or.inl ⟨rfl, h.1.symm, h.2.symm⟩⟩
  · rename_i x st1 splice vlOpt vl1 heq hstk
    simp only [Except.ok.injEq, Prod.mk.injEq] at h
    refine ⟨st1, some vl1, splice, heq, Or.inr ⟨vl1, rfl, ⟨_, rfl, ?_⟩, h.2.symm⟩⟩
    rw [← h.1]
    rw [hstk]
    exact rfl
  · rename_i x st1 splice vlOpt vl1 heq hstk
    simp only [Except.ok.injEq, Prod.mk.injEq] at h
    refine ⟨st1, some vl1, splice, heq, Or.inr ⟨vl1, rfl, ⟨_, rfl, ?_⟩, h.2.symm⟩⟩
    rw [← h.1]
    rw [if_neg hstk]

/-- A benign step never touches the persistent dictionaries, keeps the
default mapping of negative owners, and consumes exactly its own record. -/
theorem ppStep_frame (cfg : PPConfig) (s : PPState) (item : DscLine) (rest : List DscLine)
    (t : PPState) (r : List DscLine)
    (hb : item.Model ∈ benignModels) (hI : (0 : Int) ≤ item.ID)
    (h : ppStep cfg s item rest = .ok (t, r)) :
    t.symbols = s.symbols ∧ t.gEdkGlobal = s.gEdkGlobal ∧
    t.gPlatformPcds = s.gPlatformPcds ∧ t.currentLine = s.currentLine ∧
    t.sectionsMacroDict = s.sectionsMacroDict ∧
    (negDefault s.idMapping → negDefault t.idMapping) ∧ r = rest := by
  have hne : item.Model ≠ MODEL_META_DATA_INCLUDE := fun hEq => absurd (hEq ▸ hb) (by decide)
  obtain ⟨u, o, sp, hQ, hC⟩ := ppStep_inv cfg s item rest t r hne h
  obtain ⟨f1, f2, f3, f4, f5, f6, f7, f8, f9, f10, f11⟩ :=
    ppProcess_frame cfg _ item.Model _ item u o sp hb hQ
  rcases hC with ⟨ho, ht, hr⟩ | ⟨vl1, ho, ⟨ins, hins, ht⟩, hr⟩
  · subst ht
    refine ⟨f1, f2, f3, f4, f5, ?_, ?_⟩
    · intro hnd
      rw [f7]
      exact hnd
    · rw [f11] at hr
      rw [List.nil_append] at hr
      exact hr
  · subst ht
    refine ⟨f1, f2, f3, f4, f5, ?_, hr⟩
    intro hnd
    have hnd1 : negDefault u.idMapping := by
      rw [f7]
      exact hnd
    exact negDefault_iminsert _ _ _ hI hnd1

/-- Two observationally agreeing states take a benign step to
observationally agreeing states, consuming the same record. -/
theorem ppStep_cong (cfg : PPConfig) (s1 s2 : PPState) (item : DscLine)
    (rest : List DscLine) (t1 t2 : PPState) (r1 r2 : List DscLine)
    (hb : item.Model ∈ benignModels) (hB : item.BelongsToItem < 0)
    (hI : (0 : Int) ≤ item.ID) (hR : ppAgree s1 s2)
    (h1 : ppStep cfg s1 item rest = .ok (t1, r1))
    (h2 : ppStep cfg s2 item rest = .ok (t2, r2)) :
    ppAgree t1 t2 ∧ r1 = rest ∧ r2 = rest := by
  have hne : item.Model ≠ MODEL_META_DATA_INCLUDE := fun hEq => absurd (hEq ▸ hb) (by decide)
  obtain ⟨u1, o1, sp1, hQ1, hC1⟩ := ppStep_inv cfg s1 item rest t1 r1 hne h1
  obtain ⟨u2, o2, sp2, hQ2, hC2⟩ := ppStep_inv cfg s2 item rest t2 r2 hne h2
  obtain ⟨hT, hDS, hES, hFL, hSY, hEG, hPD, hPP, hCL, hM1, hM2, hN1, hN2⟩ := hR
  have hPC := ppProcess_cong cfg _ _ item.Model _ item item u1 u2 o1 o2 sp1 sp2 hb
    (by exact ⟨hT, hDS, hES, hFL, hSY, hEG, hPD, hPP, hCL, hM1, hM2, hN1, hN2⟩) hQ1 hQ2
  obtain ⟨hRU, hoo⟩ := hPC
  obtain ⟨g1, g2, g3, g4, g5, g6, g7, g8, g9, g10, g11⟩ :=
    ppProcess_frame cfg _ item.Model _ item u1 o1 sp1 hb hQ1
  obtain ⟨e1, e2, e3, e4, e5, e6, e7, e8, e9, e10, e11⟩ :=
    ppProcess_frame cfg _ item.Model _ item u2 o2 sp2 hb hQ2
  obtain ⟨kT, kDS, kES, kFL, kSY, kEG, kPD, kPP, kCL, kM1, kM2, kN1, kN2⟩ := hRU
  rcases hC1 with ⟨ho1, ht1, hr1⟩ | ⟨vl1, ho1, ⟨ins1, hins1, ht1⟩, hr1⟩ <;>
    rcases hC2 with ⟨ho2, ht2, hr2⟩ | ⟨vl2, ho2, ⟨ins2, hins2, ht2⟩, hr2⟩
  · subst ht1
    subst ht2
    rw [g11] at hr1
    rw [List.nil_append] at hr1
    rw [e11] at hr2
    rw [List.nil_append] at hr2
    exact ⟨⟨kT, kDS, kES, kFL, kSY, kEG, kPD, kPP, kCL, kM1, kM2, kN1, kN2⟩, hr1, hr2⟩
  · rw [ho1, ho2] at hoo
    exact Option.noConfusion hoo
  · rw [ho1, ho2] at hoo
    exact Option.noConfusion hoo
  · subst ht1
    subst ht2
    have hvl : vl1 = vl2 := by
      rw [ho1, ho2] at hoo
      injection hoo
    have hOwn1 : imget u1.idMapping item.BelongsToItem = -1 := kN1 _ hB
    have hOwn2 : imget u2.idMapping item.BelongsToItem = -1 := kN2 _ hB
    have hFrom1 : u1.fromItem = item.FromItem := g9
    have hFrom2 : u2.fromItem = item.FromItem := e9
    have hLine1 : u1.lineIndex = item.StartLine - 1 := g10
    have hLine2 : u2.lineIndex = item.StartLine - 1 := e10
    have hinseq : ins1 = ins2 := by
      rw [hins1, hins2, kT, hvl, kES, hOwn1, hOwn2, hFrom1, hFrom2, hLine1, hLine2]
    refine ⟨⟨?_, kDS, kES, kFL, kSY, kEG, kPD, kPP, kCL, kM1, kM2, ?_, ?_⟩, hr1, hr2⟩
    · show ins1.1 = ins2.1
      rw [hinseq]
    · exact negDefault_iminsert _ _ _ hI kN1
    · show negDefault (iminsert u2.idMapping item.ID ins2.2)
      rw [← hinseq]
      exact negDefault_iminsert _ _ _ hI kN2

/-- Over benign content the content loop never touches the persistent
dictionaries and keeps negative owners mapped to the default. -/
theorem ppLoop_frame (cfg : PPConfig) (fuel : Nat) :
    ∀ (content : List DscLine) (s t : PPState),
    (∀ x ∈ content, x.Model ∈ benignModels ∧ x.BelongsToItem < 0 ∧ (0 : Int) ≤ x.ID) →
    ppLoop cfg fuel s content = .ok t →
    t.symbols = s.symbols ∧ t.gEdkGlobal = s.gEdkGlobal ∧
    t.gPlatformPcds = s.gPlatformPcds ∧ t.currentLine = s.currentLine ∧
    (negDefault s.idMapping → negDefault t.idMapping) := by
  induction fuel with
  | zero =>
      intro content s t hb h
      exact Except.noConfusion h
  | succ n ih =>
      intro content s t hb h
      cases content with
      | nil =>
          simp only [ppLoop] at h
          simp only [Except.ok.injEq] at h
          subst h
          exact ⟨rfl, rfl, rfl, rfl, fun hnd => hnd⟩
      | cons item rest =>
          simp only [ppLoop] at h
          rcases hS : ppStep cfg s item rest with e | ⟨s1, rest1⟩ <;> rw [hS] at h
          · simp at h
          · simp only [] at h
            obtain ⟨f1, f2, f3, f4, f5, f6, f7⟩ := ppStep_frame cfg s item rest s1 rest1
              (hb item (by simp)).1 (hb item (by simp)).2.2 hS
            rw [f7] at h
            obtain ⟨i1, i2, i3, i4, i5⟩ := ih rest s1 t
              (fun x hx => hb x (List.mem_cons_of_mem _ hx)) h
            exact ⟨i1.trans f1, i2.trans f2, i3.trans f3, i4.trans f4,
              fun hnd => i5 (f6 hnd)⟩

/-- Over benign content the content loop preserves observational
agreement of two runs. -/
theorem ppLoop_cong (cfg : PPConfig) (fuel : Nat) :
    ∀ (content : List DscLine) (s1 s2 t1 t2 : PPState),
    (∀ x ∈ content, x.Model ∈ benignModels ∧ x.BelongsToItem < 0 ∧ (0 : Int) ≤ x.ID) →
    ppAgree s1 s2 →
    ppLoop cfg fuel s1 content = .ok t1 →
    ppLoop cfg fuel s2 content = .ok t2 →
    ppAgree t1 t2 := by
  induction fuel with
  | zero =>
      intro content s1 s2 t1 t2 hb hR h1 h2
      exact Except.noConfusion h1
  | succ n ih =>
      intro content s1 s2 t1 t2 hb hR h1 h2
      cases content with
      | nil =>
          simp only [ppLoop] at h1 h2
          simp only [Except.ok.injEq] at h1 h2
          subst h1
          subst h2
          exact hR
      | cons item rest =>
          simp only [ppLoop] at h1 h2
          rcases hS1 : ppStep cfg s1 item rest with e | ⟨u1, rest1⟩ <;> rw [hS1] at h1
          · simp at h1
          rcases hS2 : ppStep cfg s2 item rest with e | ⟨u2, rest2⟩ <;> rw [hS2] at h2
          · simp at h2
          simp only [] at h1 h2
          obtain ⟨hRT, hr1, hr2⟩ := ppStep_cong cfg s1 s2 item rest u1 u2 rest1 rest2
            (hb item (by simp)).1 (hb item (by simp)).2.1 (hb item (by simp)).2.2 hR hS1 hS2
          rw [hr1] at h1
          rw [hr2] at h2
          exact ih rest u1 u2 t1 t2 (fun x hx => hb x (List.mem_cons_of_mem _ hx)) hRT h1 h2

/-- Raw store holding a SkuIds line guarded by !ifdef on a feature-flag
PCD that the same file declares later ([PcdsFeatureFlag] section). -/
def rawC4 : PlatformTable :=
  { CurrentContent :=
      [mkRec 10000001 MODEL_META_DATA_SECTION_HEADER "SKUIDS" "" "" 1,
       mkRec 10000002 MODEL_META_DATA_CONDITIONAL_STATEMENT_IFDEF "!ifdef" "gTS.PcdX" "" 2,
       mkRec 10000003 MODEL_EFI_SKU_ID "0" "DEFAULT" "" 3,
       mkRec 10000004 MODEL_META_DATA_CONDITIONAL_STATEMENT_ENDIF "!endif" "" "" 4,
       mkRec 10000005 MODEL_META_DATA_SECTION_HEADER "PCDSFEATUREFLAG" "" "" 5,
       mkRec 10000006 MODEL_PCD_FEATURE_FLAG "gTS" "PcdX" "1" 6],
    ID := 10000006 }

/-- First post-processing run on the feature-flag file. -/
def C4r1 : PPState := (postProcess cfgT 100 ppInitState rawC4).toOption.getD ppInitState

/-- Second post-processing run, from the state the first run left. -/
def C4r2 : PPState := (postProcess cfgT 100 C4r1 rawC4).toOption.getD ppInitState

/-- C4: refuted as stated.  Both runs succeed, but the second run's
resolved table differs from the first: the feature-flag PCD record of the
first run populated the persistent _Symbols dictionary, so the !ifdef
evaluates differently in the second run and the guarded SkuIds record
flips its enabled flag. -/
theorem C4_counterexample :
    postProcess cfgT 100 ppInitState rawC4 = .ok C4r1 ∧
    postProcess cfgT 100 C4r1 rawC4 = .ok C4r2 ∧
    C4r2.table ≠ C4r1.table := by decide

/-- C4 (amended): the pass is idempotent on benign content: raw tables of
top-level records (negative owner, non-negative id) whose models carry no
define records, no feature-flag or fixed-at-build PCDs, no includes and no
error directives resolve to the same table in a repeated run. -/
theorem C4_theorem (cfg : PPConfig) (fuel : Nat) (raw : PlatformTable) (st1 st2 : PPState)
    (hb : ∀ x ∈ raw.GetAll, x.Model ∈ benignModels ∧ x.BelongsToItem < 0 ∧ (0 : Int) ≤ x.ID)
    (h1 : postProcess cfg fuel ppInitState raw = .ok st1)
    (h2 : postProcess cfg fuel st1 raw = .ok st2) :
    st2.table = st1.table := by
  unfold postProcess at h1
  dsimp only [] at h1
  split at h1
  · exact Except.noConfusion h1
  rename_i stA heqA
  simp only [Except.ok.injEq] at h1
  subst h1
  unfold postProcess at h2
  dsimp only [] at h2
  split at h2
  · exact Except.noConfusion h2
  rename_i stB heqB
  simp only [Except.ok.injEq] at h2
  subst h2
  obtain ⟨p1, p2, p3, p4, p5⟩ := ppLoop_frame cfg fuel raw.GetAll _ stA hb heqA
  have hAg := ppLoop_cong cfg fuel raw.GetAll _ _ stA stB hb
    (by exact ⟨rfl, rfl, rfl, rfl, p1.symm, p2.symm, rfl, p3.symm, p4.symm, rfl, rfl,
      negDefault_init, p5 negDefault_init⟩) heqA heqB
  exact hAg.1.symm

/-- The three-record !if 0 file is benign content: running the pass twice
gives the same resolved table. -/
def C4b1 : PPState := (postProcess cfgT 100 ppInitState rawC5).toOption.getD ppInitState

/-- Second run on the benign !if 0 file. -/
def C4b2 : PPState := (postProcess cfgT 100 C4b1 rawC5).toOption.getD ppInitState

theorem C4_witness : C4b2.table = C4b1.table :=
  C4_theorem cfgT 100 rawC5 C4b1 C4b2 (by decide) (by decide) (by decide)

/-- Character class of the CODE pattern regex of MetaFileParser2.py line
50: hex digits, X, x, braces, comma and whitespace. -/
def codeCharOk (c : Char) : Bool :=
  (('a' ≤ c ∧ c ≤ 'f') ∨ ('A' ≤ c ∧ c ≤ 'F') ∨ c.isDigit ∨ c = 'X' ∨ c = 'x' ∨
   c = Char.ofNat 123 ∨ c = Char.ofNat 125 ∨ c = ',' ∨ isPyWs c)

/-- After the literal CODE opener: a run of class characters closed by
the two-character terminator. -/
def codeAfter : List Char → Bool
  | [] => false
  | c :: cs =>
      if c = ')' then
        match cs with
        | d :: _ => d = Char.ofNat 125
        | [] => false
      else if codeCharOk c then codeAfter cs
      else false

/-- CODEPattern.findall(Line) finds a match: some position starts the
literal opener followed by class characters and the terminator. -/
def codePatternFound : List Char → Bool
  | [] => false
  | c :: cs =>
      (if ("\x7bCODE(".toList).isPrefixOf (c :: cs) then codeAfter ((c :: cs).drop 6)
       else false) || codePatternFound cs

/-- The rewriting loop of MetaFileParser.ProcessMultipleLineCODEValue. -/
def pmlcvGo : Bool → String → Nat → List String → List String
  | _, _, _, [] => []
  | true, codeLine, cnt, line :: rest =>
      let codeLine1 := codeLine ++ line
      if pyContains line ")\x7d" then
        (codeLine1 :: List.replicate (cnt + 1) "") ++ pmlcvGo false "" 0 rest
      else pmlcvGo true codeLine1 (cnt + 1) rest
  | false, _, _, line :: rest =>
      if line = "" then line :: pmlcvGo false "" 0 rest
      else if !(pyContains line "\x7bCODE(") then line :: pmlcvGo false "" 0 rest
      else if codePatternFound line.toList then line :: pmlcvGo false "" 0 rest
      else pmlcvGo true line 0 rest

/-- MetaFileParser.ProcessMultipleLineCODEValue: folds multi-line
CODE-value blocks into one line followed by blank placeholders. -/
def ProcessMultipleLineCODEValue (content : List String) : List String :=
  pmlcvGo false "" 0 content

/-- Loop state of InfParser.Start: the store and the loop-carried local
variables of lines 594-609. -/
structure InfStartSt where
  table : ModuleTable
  owners : List Int
  nmakeLine : String
  isFindBlockComment : Bool
  getHeaderComment : Bool
  tailComments : List (String × Int)
  sectionComments : List (String × Int)
  comments : List (String × Int)

/-- The non-skipped part of the InfParser.Start loop body (section header
handling, the _SectionParser dispatch and the store loop), as an oracle:
the state, line index, cleaned line, its comment and the cleaned next
line. -/
abbrev InfBody := InfStartSt → Nat → String → String → String →
  Except EdkError InfStartSt

/-- The line loop of InfParser.Start (lines 610-630): empty lines collect
comments, block comments toggle the skip flag, and every other line runs
the body. -/
def infStartLoop (body : InfBody) : Nat → InfStartSt → List String →
    Except EdkError InfStartSt
  | _, st, [] => .ok st
  | idx, st, raw :: rest =>
      let lc := CleanString2 raw true
      let line := lc.1
      let comment := lc.2
      if line = "" then
        let st1 :=
          if comment ≠ "" then
            { st with comments := st.comments ++ [(comment, Int.ofNat idx + 1)] }
          else if st.getHeaderComment then
            { st with sectionComments := st.sectionComments ++ st.comments, comments := [] }
          else st
        infStartLoop body (idx + 1) st1 rest
      else if pyContains line "/*" then
        infStartLoop body (idx + 1) { st with isFindBlockComment := true } rest
      else if pyContains line "*/" then
        infStartLoop body (idx + 1) { st with isFindBlockComment := false } rest
      else if st.isFindBlockComment then
        infStartLoop body (idx + 1) st rest
      else
        match body st idx line comment ((CleanString2 (rest.getD 0 "") false).1) with
        | .error e => .error e
        | .ok st1 => infStartLoop body (idx + 1) st1 rest

/-- InfParser.Start over the file's lines: run the loop, then flush tail
comments, reject open block comments, store the tail comments and set the
end flag (_Done). -/
def InfParser.Start (body : InfBody) (t0 : ModuleTable) (content : List String) :
    Except EdkError ModuleTable :=
  let st0 : InfStartSt :=
    { table := t0, owners := [-1], nmakeLine := "", isFindBlockComment := false,
      getHeaderComment := false, tailComments := [], sectionComments := [],
      comments := [] }
  match infStartLoop body 0 st0 content with
  | .error e => .error e
  | .ok st =>
      let st := { st with
                   tailComments := st.tailComments ++ st.sectionComments ++ st.comments }
      if st.isFindBlockComment then
        .error (.format "Open block comments are expected to end with the closer")
      else
        let t := st.tailComments.foldl (fun tb c =>
          (tb.Insert MODEL_META_DATA_TAIL_COMMENT c.1 "" "" TAB_COMMON TAB_COMMON
            ((st.owners.getLast?).getD (-1)) (-1) (-1) (-1) (-1) 1).1) st.table
        .ok t.SetEndFlag

/-- Loop state of DscParser.Start: the raw store and the loop-carried
parser fields of lines 972-1078. -/
structure DscStartSt where
  table : PlatformTable
  owners : List Int
  inSubsection : Bool
  sectionType : Int
  subsectionType : Int
  directiveStack : List (Int × Int × String)
  lastItem : Int
  ownerId : List (String × Int)

/-- The non-skipped part of the DscParser.Start loop body (owner pushing,
header/subsection/directive classification, the SET check, the
_SectionParser dispatch and the store loop), as an oracle. -/
abbrev DscBody := DscStartSt → Nat → String → Except EdkError DscStartSt

/-- The line loop of DscParser.Start: empty lines are skipped, every
other line runs the body. -/
def dscStartLoop (body : DscBody) : Nat → DscStartSt → List String →
    Except EdkError DscStartSt
  | _, st, [] => .ok st
  | idx, st, raw :: rest =>
      let line := (CleanString2 raw false).1
      if line = "" then dscStartLoop body (idx + 1) st rest
      else
        match body st idx line with
        | .error e => .error e
        | .ok st1 => dscStartLoop body (idx + 1) st1 rest

/-- DscParser.Start over the file's lines: fold CODE values, run the
loop, reject an unterminated conditional directive and set the end flag
(_Done). -/
def DscParser.Start (body : DscBody) (t0 : PlatformTable) (content : List String) :
    Except EdkError PlatformTable :=
  let st0 : DscStartSt :=
    { table := t0, owners := [-1], inSubsection := false,
      sectionType := MODEL_UNKNOWN, subsectionType := MODEL_UNKNOWN,
      directiveStack := [], lastItem := -1, ownerId := [] }
  match dscStartLoop body 0 st0 (ProcessMultipleLineCODEValue content) with
  | .error e => .error e
  | .ok st =>
      if st.directiveStack ≠ [] then
        .error (.format "No matching bang-endif found")
      else .ok st.table.SetEndFlag

/-- Loop state of DecParser.Start: the store, the Defines-section counter
and the comment list of lines 1847-1933. -/
structure DecStartSt where
  table : PackageTable
  definesCount : Nat
  comments : List (String × Int)
  sectionType : List Int

/-- The non-skipped part of the DecParser.Start loop body (section header
handling, the _SectionParser dispatch and the store loop), as an
oracle. -/
abbrev DecBody := DecStartSt → Nat → String → Except EdkError DecStartSt

/-- The line loop of DecParser.Start: comments are collected on every
line, empty lines are skipped, every other line runs the body. -/
def decStartLoop (body : DecBody) : Nat → DecStartSt → List String →
    Except EdkError DecStartSt
  | _, st, [] => .ok st
  | idx, st, raw :: rest =>
      let lc := CleanString2 raw false
      let st1 :=
        if lc.2 ≠ "" then { st with comments := st.comments ++ [(lc.2, Int.ofNat idx + 1)] }
        else st
      if lc.1 = "" then decStartLoop body (idx + 1) st1 rest
      else
        match body st1 idx lc.1 with
        | .error e => .error e
        | .ok st2 => decStartLoop body (idx + 1) st2 rest

/-- DecParser.Start over the file's lines: fold CODE values, run the
loop, then reject zero or multiple [Defines] sections before setting the
end flag (_Done). -/
def DecParser.Start (body : DecBody) (t0 : PackageTable) (content : List String) :
    Except EdkError PackageTable :=
  let st0 : DecStartSt :=
    { table := t0, definesCount := 0, comments := [], sectionType := [] }
  match decStartLoop body 0 st0 (ProcessMultipleLineCODEValue content) with
  | .error e => .error e
  | .ok st =>
      if st.definesCount > 1 then .error (.format "Multiple [Defines] section is exist.")
      else if st.definesCount = 0 then .error (.format "No [Defines] section exist.")
      else .ok st.table.SetEndFlag

/-- A trivial line body (never consulted on an empty file). -/
def decBody0 : DecBody := fun st _ _ => .ok st

/-- C6: refuted for the P dialect.  Parsing an empty file with DecParser
fails fatally: the post-loop check rejects a file without a [Defines]
section. -/
theorem C6_counterexample :
    DecParser.Start decBody0 PackageTable.init [] =
      .error (.format "No [Defines] section exist.") := rfl

/-- C6 (amended): for the I and D dialects an empty input parses without
error and the store holds exactly the end-flag sentinel; for the P
dialect the parse of an empty input always fails with the fatal
no-[Defines] error, whatever the per-line parser does. -/
theorem C6_theorem :
    (∀ body : InfBody,
      InfParser.Start body ModuleTable.init [] = .ok ModuleTable.init.SetEndFlag ∧
      ModuleTable.init.SetEndFlag.CurrentContent = [ ModuleTable.dummy]) ∧
    (∀ body : DscBody,
      DscParser.Start body PlatformTable.init [] = .ok PlatformTable.init.SetEndFlag ∧
      PlatformTable.init.SetEndFlag.CurrentContent = [ PlatformTable.dummy]) ∧
    (∀ body : DecBody,
      DecParser.Start body PackageTable.init [] =
        .error (.format "No [Defines] section exist.")) :=
  ⟨fun _ => ⟨rfl, rfl⟩, fun _ => ⟨rfl, rfl⟩, fun _ => rfl⟩
